import Mathlib

/-!
Verification of the LLM brief-generation service in
`src/generator/services/llm.py`.

The Python module is shallowly embedded: Python strings are `List Char`
(Lean `Char` is a Unicode scalar value, which covers every string the
program manipulates), JSON values are an inductive type, the standard
library `json.dumps` / `json.loads` pair is modelled by an executable
serializer and an executable fuel-based recursive-descent parser over the
JSON fragment the program exchanges (objects, arrays, strings, integers,
booleans, null; float literals never occur in this program and are
rejected by the model with an explicit message), and Python exceptions
are an explicit error type threaded through `Except`.  Network calls and
the Faker test generator are oracles passed in as explicit parameters, so
"the adapter raised" and "the adapter returned this text" are ordinary
case splits.  Wall-clock latency and cost fields of the metrics dict are
not modelled (they are real-time measurements); every field the
specification claims talk about (provider, model, token counts, success,
parse_error, error) is.
-/

/-- Python strings, as lists of Unicode scalar values. -/
abbrev Str := List Char

/-- Whitespace recognised by the JSON scanner of the Python `json` module
(space, tab, newline, carriage return). -/
def isJsonWs (c : Char) : Bool :=
  c == ' ' || c == '\t' || c == '\n' || c == '\r'

/-- Whitespace recognised by Python `str.strip()` / `str.split()` on the
ASCII range (space, tab, newline, carriage return, vertical tab, form feed). -/
def isPySpace (c : Char) : Bool :=
  c == ' ' || c == '\t' || c == '\n' || c == '\r' || c == '\x0b' || c == '\x0c'

/-- Drop leading JSON whitespace. -/
def skipWs (s : Str) : Str := s.dropWhile isJsonWs

/-- Python `str.strip()`: remove leading and trailing whitespace. -/
def pyStrip (s : Str) : Str :=
  ((s.dropWhile isPySpace).reverse.dropWhile isPySpace).reverse

/-- Does `needle` occur at the head of `hay`? -/
def headMatch : Str → Str → Bool
  | [], _ => true
  | _ :: _, [] => false
  | a :: as, b :: bs => a == b && headMatch as bs

/-- Scan of `pyFind`, carrying the index reached so far. -/
def pyFindGo (needle : Str) : Str → Nat → Option Nat
  | [], i => if headMatch needle [] then some i else none
  | c :: t, i => if headMatch needle (c :: t) then some i else pyFindGo needle t (i + 1)

/-- Python `str.find`: index of the first occurrence of `needle` in `hay`,
`none` when absent (Python returns -1). -/
def pyFind (needle hay : Str) : Option Nat :=
  pyFindGo needle hay 0

/-- Python `str.find` with a start index: `hay.find(needle, start)`. -/
def pyFindFrom (needle hay : Str) (start : Nat) : Option Nat :=
  (pyFind needle (hay.drop start)).map (· + start)

/-- Python `"needle" in hay` substring test. -/
def hasSubstr (needle hay : Str) : Bool :=
  (pyFind needle hay).isSome

/-- Index of the last occurrence of character `c` (Python `str.rfind` of a
one-character needle), `none` when absent. -/
def lastIdxOf (c : Char) (s : Str) : Option Nat :=
  (s.reverse.findIdx? (· == c)).map (fun i => s.length - 1 - i)

/-- Python slice `s[a:b]` for non-negative bounds (clamped, empty when
`b ≤ a`). -/
def pySlice (s : Str) (a b : Nat) : Str :=
  (s.take b).drop a

/-- Word scan: counts entries of non-whitespace runs, given whether the
scan stands inside a run. -/
def countWordsGo : Str → Bool → Nat
  | [], _ => 0
  | c :: t, inWord =>
    if isPySpace c then countWordsGo t false
    else if inWord then countWordsGo t true
    else countWordsGo t true + 1

/-- Python `len(s.split())`: number of maximal runs of non-whitespace
characters. -/
def countWords (s : Str) : Nat :=
  countWordsGo s false

/-- Sentence-ending punctuation used by the validator
(`re.split` on one or more of `.`, `!`, `?`). -/
def isSentencePunct (c : Char) : Bool :=
  c == '.' || c == '!' || c == '?'

/-- Sentence scan: counts blocks holding a non-whitespace character, given
whether the current block has already shown one. -/
def sentenceCountGo : Str → Bool → Nat
  | [], _ => 0
  | c :: t, seen =>
    if isSentencePunct c then sentenceCountGo t false
    else if isPySpace c then sentenceCountGo t seen
    else if seen then sentenceCountGo t true
    else sentenceCountGo t true + 1

/-- `len([s for s in re.split(r"[.!?]+", brief) if s.strip()])`: the number
of maximal punctuation-free blocks containing at least one non-whitespace
character.  (A block survives the `if s.strip()` filter exactly when it has
a non-whitespace character, and `re.split` on a `+`-quantified class never
produces empty interior segments, so counting such blocks is the same
number.) -/
def sentenceCount (s : Str) : Nat :=
  sentenceCountGo s false

/-- JSON values, as produced by the Python `json` module on the fragment
this program exchanges.  Object fields keep their textual order; the
program never produces duplicate keys, and lookup takes the last binding
as a Python dict built by the parser would. -/
inductive Json where
  | null : Json
  | bool (b : Bool) : Json
  | num (n : Int) : Json
  | str (s : Str) : Json
  | arr (xs : List Json) : Json
  | obj (fields : List (Str × Json)) : Json

mutual

/-- Structural decidable equality for `Json`, written as one recursion
through the two nested list positions (no deriving handler applies to the
nested inductive). -/
def Json.decEq : (a b : Json) → Decidable (a = b)
  | .null, .null => isTrue rfl
  | .bool a, .bool b =>
    if h : a = b then isTrue (h ▸ rfl) else isFalse (fun hc => h (Json.bool.inj hc))
  | .num a, .num b =>
    if h : a = b then isTrue (h ▸ rfl) else isFalse (fun hc => h (Json.num.inj hc))
  | .str a, .str b =>
    if h : a = b then isTrue (h ▸ rfl) else isFalse (fun hc => h (Json.str.inj hc))
  | .arr a, .arr b =>
    match Json.decEqList a b with
    | isTrue h => isTrue (h ▸ rfl)
    | isFalse h => isFalse (fun hc => h (Json.arr.inj hc))
  | .obj a, .obj b =>
    match Json.decEqFields a b with
    | isTrue h => isTrue (h ▸ rfl)
    | isFalse h => isFalse (fun hc => h (Json.obj.inj hc))
  | .null, .bool _ | .null, .num _ | .null, .str _ | .null, .arr _ | .null, .obj _
  | .bool _, .null | .bool _, .num _ | .bool _, .str _ | .bool _, .arr _ | .bool _, .obj _
  | .num _, .null | .num _, .bool _ | .num _, .str _ | .num _, .arr _ | .num _, .obj _
  | .str _, .null | .str _, .bool _ | .str _, .num _ | .str _, .arr _ | .str _, .obj _
  | .arr _, .null | .arr _, .bool _ | .arr _, .num _ | .arr _, .str _ | .arr _, .obj _
  | .obj _, .null | .obj _, .bool _ | .obj _, .num _ | .obj _, .str _ | .obj _, .arr _ =>
    isFalse (fun hc => Json.noConfusion hc)

/-- Pointwise decidable equality for lists of values. -/
def Json.decEqList : (a b : List Json) → Decidable (a = b)
  | [], [] => isTrue rfl
  | [], _ :: _ => isFalse (fun hc => List.noConfusion hc)
  | _ :: _, [] => isFalse (fun hc => List.noConfusion hc)
  | x :: xs, y :: ys =>
    match Json.decEq x y with
    | isFalse h => isFalse (fun hc => h (List.cons.inj hc).1)
    | isTrue h1 =>
      match Json.decEqList xs ys with
      | isTrue h2 => isTrue (by rw [h1, h2])
      | isFalse h => isFalse (fun hc => h (List.cons.inj hc).2)

/-- Pointwise decidable equality for field lists. -/
def Json.decEqFields : (a b : List (Str × Json)) → Decidable (a = b)
  | [], [] => isTrue rfl
  | [], _ :: _ => isFalse (fun hc => List.noConfusion hc)
  | _ :: _, [] => isFalse (fun hc => List.noConfusion hc)
  | (k, v) :: xs, (l, w) :: ys =>
    if hk : k = l then
      match Json.decEq v w with
      | isFalse h =>
        isFalse (fun hc => h (congrArg Prod.snd (List.cons.inj hc).1))
      | isTrue h1 =>
        match Json.decEqFields xs ys with
        | isTrue h2 => isTrue (by rw [hk, h1, h2])
        | isFalse h => isFalse (fun hc => h (List.cons.inj hc).2)
    else isFalse (fun hc => hk (congrArg Prod.fst (List.cons.inj hc).1))

end

instance : DecidableEq Json := Json.decEq

instance : BEq Json := instBEqOfDecidableEq

/-- Equality of `Except` results is decidable when both component types
have decidable equality; used to evaluate the model at concrete inputs. -/
def exceptDecEq {ε α : Type} [DecidableEq ε] [DecidableEq α] :
    DecidableEq (Except ε α) := fun a b =>
  match a, b with
  | .error e, .error f =>
    if h : e = f then isTrue (by rw [h]) else isFalse (by intro hc; cases hc; exact h rfl)
  | .ok x, .ok y =>
    if h : x = y then isTrue (by rw [h]) else isFalse (by intro hc; cases hc; exact h rfl)
  | .error _, .ok _ => isFalse (by intro hc; cases hc)
  | .ok _, .error _ => isFalse (by intro hc; cases hc)

instance {ε α : Type} [DecidableEq ε] [DecidableEq α] : DecidableEq (Except ε α) :=
  exceptDecEq

/-- Lower-case hexadecimal digit for `k % 16`, as emitted by the `\uXXXX`
escapes of `json.dumps` (CPython emits lower case). -/
def hexDig (k : Nat) : Char :=
  if k < 10 then Char.ofNat (48 + k) else Char.ofNat (87 + k)

/-- Value of a hexadecimal digit accepted by the `json` scanner (both
cases), `none` for a non-digit. -/
def decHex (c : Char) : Option Nat :=
  if '0' ≤ c && c ≤ '9' then some (c.toNat - 48)
  else if 'a' ≤ c && c ≤ 'f' then some (c.toNat - 87)
  else if 'A' ≤ c && c ≤ 'F' then some (c.toNat - 55)
  else none

/-- The four hex digits of `n % 0x10000`, most significant first. -/
def toHex4 (n : Nat) : Str :=
  [hexDig (n / 4096 % 16), hexDig (n / 256 % 16), hexDig (n / 16 % 16), hexDig (n % 16)]

/-- The escape sequence (or verbatim character) that `json.dumps` with its
default `ensure_ascii=True` emits for one character of a string value:
short escapes for the quote, backslash and the common controls, `\uXXXX`
for other controls and all characters above `0x7e`, surrogate pairs for
characters beyond the basic multilingual plane. -/
def encodeChar (c : Char) : Str :=
  if c = '\x22' then ['\\', '\x22']
  else if c = '\\' then ['\\', '\\']
  else if c = '\x08' then ['\\', 'b']
  else if c = '\x09' then ['\\', 't']
  else if c = '\x0a' then ['\\', 'n']
  else if c = '\x0c' then ['\\', 'f']
  else if c = '\x0d' then ['\\', 'r']
  else if c.toNat < 0x20 then '\\' :: 'u' :: toHex4 c.toNat
  else if c.toNat < 0x7f then [c]
  else if c.toNat < 0x10000 then '\\' :: 'u' :: toHex4 c.toNat
  else
    '\\' :: 'u' :: toHex4 (0xd800 + (c.toNat - 0x10000) / 0x400) ++
      '\\' :: 'u' :: toHex4 (0xdc00 + (c.toNat - 0x10000) % 0x400)

/-- `json.dumps` escaping of a whole string value (without the enclosing
quotes). -/
def encodeString : Str → Str
  | [] => []
  | c :: t => encodeChar c ++ encodeString t

/-- A serialized JSON string value, quotes included. -/
def renderString (s : Str) : Str :=
  '\x22' :: (encodeString s ++ ['\x22'])

/-- The serialized `null` literal. -/
def litNull : Str := "null".toList

/-- The serialized `true` literal. -/
def litTrue : Str := "true".toList

/-- The serialized `false` literal. -/
def litFalse : Str := "false".toList

/-- Decimal digits of an integer, as Python `repr` / `json.dumps` print it. -/
def intRepr (n : Int) : Str :=
  if n < 0 then '-' :: Nat.toDigits 10 n.natAbs else Nat.toDigits 10 n.natAbs

mutual

/-- `json.dumps(v)` with the default separators `", "` and `": "` and the
default `ensure_ascii=True`, on the fragment of JSON this program uses. -/
def dumps : Json → Str
  | .null => litNull
  | .bool true => litTrue
  | .bool false => litFalse
  | .num n => intRepr n
  | .str s => renderString s
  | .arr xs => '[' :: (dumpsElems xs ++ [']'])
  | .obj fs => '\x7b' :: (dumpsMembers fs ++ ['\x7d'])

/-- Array elements joined by `", "`. -/
def dumpsElems : List Json → Str
  | [] => []
  | [x] => dumps x
  | x :: y :: t => dumps x ++ ',' :: ' ' :: dumpsElems (y :: t)

/-- Object members `key: value` joined by `", "`. -/
def dumpsMembers : List (Str × Json) → Str
  | [] => []
  | [(k, v)] => renderString k ++ ':' :: ' ' :: dumps v
  | (k, v) :: m :: t => renderString k ++ ':' :: ' ' :: dumps v ++ ',' :: ' ' :: dumpsMembers (m :: t)

end

/-- `indent` spaces. -/
def pad (n : Nat) : Str := List.replicate n ' '

mutual

/-- `json.dumps(v, indent=2)`: each array element and object member on its
own line, two more spaces of indentation per level, item separator `","`,
key separator `": "`, exactly as the Python encoder lays it out. -/
def dumpsInd (ind : Nat) : Json → Str
  | .null => litNull
  | .bool true => litTrue
  | .bool false => litFalse
  | .num n => intRepr n
  | .str s => renderString s
  | .arr [] => ['[', ']']
  | .arr (x :: t) =>
    '[' :: '\n' :: (dumpsIndElems (ind + 2) (x :: t) ++ '\n' :: (pad ind ++ [']']))
  | .obj [] => ['\x7b', '\x7d']
  | .obj (f :: t) =>
    '\x7b' :: '\n' :: (dumpsIndMembers (ind + 2) (f :: t) ++ '\n' :: (pad ind ++ ['\x7d']))

/-- Indented array elements joined by `",\n"`. -/
def dumpsIndElems (ind : Nat) : List Json → Str
  | [] => []
  | [x] => pad ind ++ dumpsInd ind x
  | x :: y :: t => pad ind ++ dumpsInd ind x ++ ',' :: '\n' :: dumpsIndElems ind (y :: t)

/-- Indented object members joined by `",\n"`. -/
def dumpsIndMembers (ind : Nat) : List (Str × Json) → Str
  | [] => []
  | [(k, v)] => pad ind ++ (renderString k ++ ':' :: ' ' :: dumpsInd ind v)
  | (k, v) :: m :: t =>
    pad ind ++ (renderString k ++ ':' :: ' ' :: dumpsInd ind v) ++
      ',' :: '\n' :: dumpsIndMembers ind (m :: t)

end

/-- Scanner message for a position where a value must start. -/
def msgExpectingValue : Str := "Expecting value".toList

/-- Scanner message for a malformed object key position. -/
def msgPropName : Str := "Expecting property name enclosed in double quotes".toList

/-- Scanner message for a missing key separator. -/
def msgColon : Str := "Expecting colon delimiter".toList

/-- Scanner message for a missing member separator. -/
def msgDelimObj : Str := "Expecting comma delimiter in object".toList

/-- Scanner message for a missing element separator. -/
def msgDelimArr : Str := "Expecting comma delimiter in array".toList

/-- Scanner message for an unterminated or malformed string literal. -/
def msgUnterminated : Str := "Unterminated string".toList

/-- Scanner message for trailing non-whitespace text after the document. -/
def msgExtra : Str := "Extra data".toList

/-- Fuel exhaustion message; unreachable with the fuel `pyLoads` supplies,
which exceeds the number of scanner steps possible on the input. -/
def msgDepth : Str := "Recursion limit exceeded".toList

/-- Model boundary: CPython parses float literals, this program never
exchanges one, and the model rejects them explicitly. -/
def msgFloat : Str := "Float literals are outside the modelled JSON fragment".toList

/-- Decode the second half of a surrogate-pair escape: `n` is the high
surrogate already read, the text must continue with four hex digits of a
low surrogate. -/
def parseLowSurrogate (n : Nat) (r : Str) : Option (Char × Str) :=
  match r with
  | g1 :: g2 :: g3 :: g4 :: r2 =>
    match decHex g1, decHex g2, decHex g3, decHex g4 with
    | some y1, some y2, some y3, some y4 =>
      let m := ((y1 * 16 + y2) * 16 + y3) * 16 + y4
      if 0xdc00 ≤ m ∧ m ≤ 0xdfff then
        some (Char.ofNat (0x10000 + (n - 0xd800) * 0x400 + (m - 0xdc00)), r2)
      else none
    | _, _, _, _ => none
  | _ => none

/-- After a high surrogate, the text must continue with another `\u`
escape holding the low surrogate. -/
def highSurrogateCont (n : Nat) : Str → Option (Char × Str)
  | '\\' :: 'u' :: rest => parseLowSurrogate n rest
  | _ => none

/-- Turn the value of a `\uXXXX` escape into a character: a
non-surrogate value stands alone, a high surrogate must be followed by an
escaped low surrogate.  (A lone surrogate escape, which CPython would
smuggle into a Python string, has no `Char` counterpart and is a parse
failure in the model; no text this program handles contains one.) -/
def hexToChar (n : Nat) (r : Str) : Option (Char × Str) :=
  if n < 0xd800 ∨ 0xdfff < n then some (Char.ofNat n, r)
  else if n < 0xdc00 then highSurrogateCont n r
  else none

/-- Four hex digits after a `\u`, combined and completed to a character. -/
def parseHex4Esc (r : Str) : Option (Char × Str) :=
  match r with
  | h1 :: h2 :: h3 :: h4 :: r2 =>
    match decHex h1, decHex h2, decHex h3, decHex h4 with
    | some x1, some x2, some x3, some x4 =>
      hexToChar (((x1 * 16 + x2) * 16 + x3) * 16 + x4) r2
    | _, _, _, _ => none
  | _ => none

/-- One escape sequence after the backslash: the decoded character and
the text after the sequence. -/
def parseEscape : Str → Option (Char × Str)
  | [] => none
  | e :: r =>
    if e = '\x22' then some ('\x22', r)
    else if e = '\\' then some ('\\', r)
    else if e = '/' then some ('/', r)
    else if e = 'b' then some ('\x08', r)
    else if e = 'f' then some ('\x0c', r)
    else if e = 'n' then some ('\x0a', r)
    else if e = 'r' then some ('\x0d', r)
    else if e = 't' then some ('\x09', r)
    else if e = 'u' then parseHex4Esc r
    else none

/-- Body of a JSON string literal, after the opening quote: returns the
decoded characters and the text after the closing quote.  Mirrors the
CPython scanner: short escapes, `\uXXXX` escapes, surrogate pairs for
astral characters, rejection of unescaped control characters.  Structural
on fuel; every step consumes at least one character, so the fuel
`parseStringBody` supplies cannot run out. -/
def parseStringBodyF : Nat → Str → Option (Str × Str)
  | 0, _ => none
  | _ + 1, [] => none
  | fuel + 1, c :: rest =>
    if c = '\x22' then some ([], rest)
    else if c = '\\' then
      match parseEscape rest with
      | some (d, r) => (parseStringBodyF fuel r).map (fun p => (d :: p.1, p.2))
      | none => none
    else if c.toNat < 0x20 then none
    else (parseStringBodyF fuel rest).map (fun p => (c :: p.1, p.2))

/-- Body of a JSON string literal, after the opening quote. -/
def parseStringBody (s : Str) : Option (Str × Str) :=
  parseStringBodyF (s.length + 1) s

/-- Decimal digit test. -/
def isDigitCh (c : Char) : Bool := '0' ≤ c && c ≤ '9'

/-- Value of a string of decimal digits. -/
def digitsVal (ds : Str) : Nat := ds.foldl (fun a c => a * 10 + (c.toNat - 48)) 0

/-- Does the text continue with a float marker after an integer part? -/
def floatNext : Str → Bool
  | [] => false
  | c :: _ => c == '.' || c == 'e' || c == 'E'

/-- The literal `true` after its first letter. -/
def parseTrue : Str → Except Str (Json × Str)
  | 'r' :: 'u' :: 'e' :: r2 => .ok (.bool true, r2)
  | _ => .error msgExpectingValue

/-- The literal `false` after its first letter. -/
def parseFalse : Str → Except Str (Json × Str)
  | 'a' :: 'l' :: 's' :: 'e' :: r2 => .ok (.bool false, r2)
  | _ => .error msgExpectingValue

/-- The literal `null` after its first letter. -/
def parseNull : Str → Except Str (Json × Str)
  | 'u' :: 'l' :: 'l' :: r2 => .ok (.null, r2)
  | _ => .error msgExpectingValue

/-- A string literal after its opening quote. -/
def parseStrLit (rest : Str) : Except Str (Json × Str) :=
  match parseStringBody rest with
  | some (content, r2) => .ok (.str content, r2)
  | none => .error msgUnterminated

/-- A negative integer after its minus sign. -/
def parseNeg (rest : Str) : Except Str (Json × Str) :=
  match rest.span isDigitCh with
  | ([], _) => .error msgExpectingValue
  | (ds, r2) =>
    if floatNext r2 then .error msgFloat
    else .ok (.num (-(digitsVal ds : Int)), r2)

/-- A non-negative integer from its first digit. -/
def parseNum (s : Str) : Except Str (Json × Str) :=
  match s.span isDigitCh with
  | (ds, r2) =>
    if floatNext r2 then .error msgFloat
    else .ok (.num (digitsVal ds : Int), r2)

mutual

/-- One JSON value, leading whitespace allowed, returning the value and the
unconsumed text.  Fuel decreases on every recursive call; `pyLoads`
supplies more fuel than any input can use. -/
def parseValue : Nat → Str → Except Str (Json × Str)
  | 0, _ => .error msgDepth
  | fuel + 1, s =>
    match skipWs s with
    | [] => .error msgExpectingValue
    | c :: rest =>
      if c = '\x7b' then
        match skipWs rest with
        | [] => parseMembers fuel [] []
        | d :: r2 =>
          if d = '\x7d' then .ok (.obj [], r2)
          else parseMembers fuel (d :: r2) []
      else if c = '[' then
        match skipWs rest with
        | [] => parseElems fuel [] []
        | d :: r2 =>
          if d = ']' then .ok (.arr [], r2)
          else parseElems fuel (d :: r2) []
      else if c = '\x22' then parseStrLit rest
      else if c = 't' then parseTrue rest
      else if c = 'f' then parseFalse rest
      else if c = 'n' then parseNull rest
      else if c = '-' then parseNeg rest
      else if isDigitCh c then parseNum (c :: rest)
      else .error msgExpectingValue

/-- Object members from the position of a key (whitespace already
skipped), accumulating parsed fields. -/
def parseMembers : Nat → Str → List (Str × Json) → Except Str (Json × Str)
  | 0, _, _ => .error msgDepth
  | fuel + 1, s, acc =>
    match s with
    | [] => .error msgPropName
    | c :: rest =>
      if c = '\x22' then
        match parseStringBody rest with
        | none => .error msgUnterminated
        | some (key, r2) =>
          match skipWs r2 with
          | [] => .error msgColon
          | d :: r3 =>
            if d = ':' then
              match parseValue fuel r3 with
              | .error e => .error e
              | .ok (v, r4) =>
                match skipWs r4 with
                | [] => .error msgDelimObj
                | e2 :: r5 =>
                  if e2 = ',' then parseMembers fuel (skipWs r5) (acc ++ [(key, v)])
                  else if e2 = '\x7d' then .ok (.obj (acc ++ [(key, v)]), r5)
                  else .error msgDelimObj
            else .error msgColon
      else .error msgPropName

/-- Array elements from the position of an element, accumulating parsed
values. -/
def parseElems : Nat → Str → List Json → Except Str (Json × Str)
  | 0, _, _ => .error msgDepth
  | fuel + 1, s, acc =>
    match parseValue fuel s with
    | .error e => .error e
    | .ok (v, r) =>
      match skipWs r with
      | [] => .error msgDelimArr
      | c :: r2 =>
        if c = ',' then parseElems fuel r2 (acc ++ [v])
        else if c = ']' then .ok (.arr (acc ++ [v]), r2)
        else .error msgDelimArr

end

/-- `json.loads`: parse one document, reject trailing non-whitespace. -/
def pyLoads (s : Str) : Except Str Json :=
  match parseValue (4 * s.length + 16) s with
  | .error e => .error e
  | .ok (v, r) => if skipWs r = [] then .ok v else .error msgExtra

/-- The fence tag the extractor searches for. -/
def fenceTag : Str := "```json".toList

/-- A closing fence. -/
def fence3 : Str := "```".toList

/-- Key of the narrative field. -/
def kBrief : Str := "brief".toList

/-- Key of the content-angles field. -/
def kAngles : Str := "angles".toList

/-- Key of the selection-criteria field. -/
def kCriteria : Str := "criteria".toList

/-- Candidate-JSON extraction of `parse_json_response` (`llm.py` lines
272-281): strip the text; if `"```json"` occurs, slice from just past the
tag to the next `"```"` (Python `find` returning -1 when there is none
makes the slice end at the second-to-last character) and strip; otherwise,
if both braces occur, slice from the first `"{"` to the last `"}"`;
otherwise keep the stripped text. -/
def extract_candidate (s : Str) : Str :=
  let t := pyStrip s
  match pyFind fenceTag t with
  | some i =>
    let start := i + 7
    match pyFindFrom fence3 t start with
    | some e => pyStrip (pySlice t start e)
    | none => pyStrip (pySlice t start (t.length - 1))
  | none =>
    if hasSubstr ['\x7b'] t && hasSubstr ['\x7d'] t then
      let a := (pyFind ['\x7b'] t).getD 0
      let b := (lastIdxOf '\x7d' t).getD 0 + 1
      pySlice t a b
    else t

/-- Python exceptions this module can raise or observe. -/
inductive PyExc where
  | valueError (msg : Str)
  | typeError (msg : Str)
  | keyError (key : Str)
  | exc (msg : Str)
deriving DecidableEq

/-- `str(e)` of a caught exception, as the module interpolates it. -/
def pyExcStr : PyExc → Str
  | .valueError m => m
  | .typeError m => m
  | .keyError k => k
  | .exc m => m

/-- Message of the `TypeError` raised by `x in data` on a non-container. -/
def msgNotIterable : Str := "argument of type int is not iterable".toList

/-- Message of the `TypeError` raised by indexing a non-dict with a string. -/
def msgBadIndex : Str := "indices must be integers".toList

/-- Python `key in data` for the values `json.loads` can produce: key
membership on a dict, element membership on a list, substring test on a
string, `TypeError` otherwise. -/
def pyIn (key : Str) (data : Json) : Except PyExc Bool :=
  match data with
  | .obj fs => .ok (fs.any (fun p => p.1 == key))
  | .arr xs => .ok (xs.any (fun v => v == Json.str key))
  | .str s => .ok (hasSubstr key s)
  | _ => .error (.typeError msgNotIterable)

/-- Python `data[key]` for the values `json.loads` can produce: dict lookup
(last binding, as a dict built by the parser would hold), `KeyError` when
absent, `TypeError` on anything that is not a dict. -/
def pyIndex (key : Str) (data : Json) : Except PyExc Json :=
  match data with
  | .obj fs =>
    match (fs.filter (fun p => p.1 == key)).getLast? with
    | some p => .ok p.2
    | none => .error (.keyError key)
  | _ => .error (.typeError msgBadIndex)

/-- Validator message: a top-level field is missing. -/
def msgMissingFields : Str := "Missing required fields in response".toList

/-- Validator message: `brief` is not a string. -/
def msgBriefStr : Str := "Brief must be a string".toList

/-- Validator message: `brief` has fewer than 10 words. -/
def msgBriefShort : Str := "Brief too short - needs more content".toList

/-- Validator message: `angles` is not a list of exactly 3 elements. -/
def msgAngles3 : Str := "Must have exactly 3 content angles".toList

/-- Validator message: `criteria` is not a list of exactly 3 elements. -/
def msgCriteria3 : Str := "Must have exactly 3 selection criteria".toList

/-- Prefix the outer handler of `parse_json_response` puts before the
message of any `json.JSONDecodeError` or `ValueError` it catches. -/
def invalidPrefix : Str := "Invalid JSON response: ".toList

/-- The field checks of the validation block, after presence of all three
top-level fields has been established. -/
def validateFields (data : Json) : Except PyExc Json :=
  match pyIndex kBrief data with
      | .error e => .error e
      | .ok briefV =>
        match briefV with
        | .str bs =>
          if countWords bs < 10 then .error (.valueError msgBriefShort)
          else
            match pyIndex kAngles data with
            | .error e => .error e
            | .ok (.arr xs) =>
              if xs.length = 3 then
                match pyIndex kCriteria data with
                | .error e => .error e
                | .ok (.arr ys) =>
                  if ys.length = 3 then .ok data else .error (.valueError msgCriteria3)
                | .ok _ => .error (.valueError msgCriteria3)
              else .error (.valueError msgAngles3)
            | .ok _ => .error (.valueError msgAngles3)
        | _ => .error (.valueError msgBriefStr)

/-- The validation block of `parse_json_response` (`llm.py` lines 285-313):
requires the three fields present, `brief` a string of at least 10 words
(the sentence count `sentenceCount` is computed there but deliberately not
enforced), and `angles` / `criteria` lists of exactly 3 elements; returns
the parsed object unchanged.  Element types inside the two lists are never
inspected. -/
def validateBrief (data : Json) : Except PyExc Json :=
  match pyIn kBrief data with
  | .error e => .error e
  | .ok b1 =>
    if b1 then
      match pyIn kAngles data with
      | .error e => .error e
      | .ok b2 =>
        if b2 then
          match pyIn kCriteria data with
          | .error e => .error e
          | .ok b3 =>
            if b3 then validateFields data
            else .error (.valueError msgMissingFields)
        else .error (.valueError msgMissingFields)
    else .error (.valueError msgMissingFields)

/-- `parse_json_response` (`llm.py` lines 266-316): extract a candidate,
parse it as JSON, validate; a `json.JSONDecodeError` or `ValueError` is
re-raised as `ValueError` with the original message appended to
`"Invalid JSON response: "`.  A `TypeError` (from probing a non-container)
is not caught there and propagates untouched. -/
def parse_json_response (response_text : Str) : Except PyExc Json :=
  match pyLoads (extract_candidate response_text) with
  | .error m => .error (.valueError (invalidPrefix ++ m))
  | .ok data =>
    match validateBrief data with
    | .ok d => .ok d
    | .error (.valueError m) => .error (.valueError (invalidPrefix ++ m))
    | .error e => .error e

/-- The constant system prompt of `build_system_prompt` (`llm.py` lines
35-65). -/
def build_system_prompt : Str :=
  ("You are a professional marketing strategist. Create campaign briefs in valid JSON format.\n\nSTRICT REQUIREMENTS - FOLLOW EXACTLY:\n1. \"brief\": Write exactly 4-6 complete sentences\n2. \"angles\": Array with exactly 3 content strategy angles\n3. \"criteria\": Array with exactly 3 creator selection criteria\n\nCONTENT SAFETY GUIDELINES:\n- Generate only professional, appropriate marketing content\n- Avoid any profanity, offensive language, or inappropriate content\n- Focus on positive brand messaging and ethical marketing practices\n- Ensure all suggestions are suitable for public marketing campaigns\n\nIMPORTANT: \n- Always include exactly 3 items in angles array\n- Always include exactly 3 items in criteria array\n- Brief must be 4-6 sentences\n- Use proper JSON format only\n- No additional text outside JSON\n\nExample format:\n\x7b\n  \"brief\": \"Sentence 1. Sentence 2. Sentence 3. Sentence 4.\",\n  \"angles\": [\"Angle 1\", \"Angle 2\", \"Angle 3\"],\n  \"criteria\": [\"Criteria 1\", \"Criteria 2\", \"Criteria 3\"]\n\x7d").toList

/-- `build_user_prompt` (`llm.py` lines 68-79): the four fields
interpolated into the fixed template. -/
def build_user_prompt (brand platform goal tone : Str) : Str :=
  ("Create a campaign brief for:\nBrand: ").toList ++ brand ++
  ("\nPlatform: ").toList ++ platform ++
  ("\nGoal: ").toList ++ goal ++
  ("\nTone: ").toList ++ tone ++
  ("\n\nGenerate a strategic campaign brief with content angles and creator criteria.").toList

/-- Django settings consumed by the module.  `AI_PROVIDER_API_KEY` is the
raw configured string; the empty string is falsy in Python, so it counts
as no credential. -/
structure Settings where
  AI_PROVIDER : Str
  AI_PROVIDER_API_KEY : Str
  OLLAMA_MODEL : Str
  OPENAI_MODEL : Str
deriving DecidableEq

/-- The metrics dict, restricted to its deterministic fields.  The
wall-clock `latency_seconds` and constant `cost_estimate` entries are
real-time measurements outside the model. -/
structure Metrics where
  provider : Str
  model : Str
  tokens_used : Nat
  total_tokens : Nat
  prompt_tokens : Nat
  success : Option Bool
  parse_error : Option Str
  error : Option Str
deriving DecidableEq

/-- Everything nondeterministic a call can observe: the outcome of the one
network request each real adapter would make (either the transport-level
failure message, or the returned text with its token counts), and the
strings Faker would draw for the synthetic provider (the joined brief and
the three angle and three criteria sentences). -/
structure ProviderEnv where
  ollamaReply : Except Str (Str × Nat)
  openaiReply : Except Str (Str × Nat × Nat × Nat)
  fakeBrief : Str
  fakeAngle1 : Str
  fakeAngle2 : Str
  fakeAngle3 : Str
  fakeCrit1 : Str
  fakeCrit2 : Str
  fakeCrit3 : Str
deriving DecidableEq

/-- Prefix of the exception `call_ollama_api` raises on any failure. -/
def msgOllamaErr : Str := "Ollama API error: ".toList

/-- Prefix of the exception `call_openai_api` raises on a call failure. -/
def msgOpenaiErr : Str := "OpenAI LangChain call failed: ".toList

/-- The configuration error of a missing OpenAI credential. -/
def msgNoKey : Str := "OpenAI API key not configured".toList

/-- Prefix of the error for an unknown provider tag. -/
def msgUnsupported : Str := "Unsupported AI provider: ".toList

/-- `call_ollama_api` (`llm.py` lines 92-136): posts the combined prompt;
on success returns the response text with token counts taken from the
reply, on any transport failure raises a generic `Exception` wrapping the
message (the locally built error metrics dict is discarded by the raise). -/
def call_ollama_api (_prompt : Str) (st : Settings) (env : ProviderEnv) :
    Except PyExc (Str × Metrics) :=
  match env.ollamaReply with
  | .ok (text, evalCount) =>
    .ok (text,
      { provider := ("ollama").toList, model := st.OLLAMA_MODEL,
        tokens_used := evalCount, total_tokens := evalCount, prompt_tokens := 0,
        success := none, parse_error := none, error := none })
  | .error e => .error (.exc (msgOllamaErr ++ e))

/-- `call_openai_api` (`llm.py` lines 155-221): resolves the credential as
`api_token or settings.AI_PROVIDER_API_KEY` (Python truthiness, so empty
strings fall through) and raises `ValueError` before any network traffic
when none is available; otherwise the reply text and token usage come
back, and any failure of the call is re-raised as a generic `Exception`
wrapping the message. -/
def call_openai_api (_system_prompt _user_prompt : Str) (api_token : Option Str)
    (st : Settings) (env : ProviderEnv) : Except PyExc (Str × Metrics) :=
  let token : Str :=
    match api_token with
    | some t => if t ≠ [] then t else st.AI_PROVIDER_API_KEY
    | none => st.AI_PROVIDER_API_KEY
  if token = [] then .error (.valueError msgNoKey)
  else
    match env.openaiReply with
    | .ok (content, ct, tt, pt) =>
      .ok (content,
        { provider := ("openai").toList, model := st.OPENAI_MODEL,
          tokens_used := ct, total_tokens := tt, prompt_tokens := pt,
          success := none, parse_error := none, error := none })
    | .error e => .error (.exc (msgOpenaiErr ++ e))

/-- The dict `call_test_api` serializes. -/
def testObj (env : ProviderEnv) : Json :=
  .obj [(kBrief, .str env.fakeBrief),
        (kAngles, .arr [.str env.fakeAngle1, .str env.fakeAngle2, .str env.fakeAngle3]),
        (kCriteria, .arr [.str env.fakeCrit1, .str env.fakeCrit2, .str env.fakeCrit3])]

/-- `call_test_api` (`llm.py` lines 225-263): builds the dict of Faker
strings (the model takes the joined 4-6 sentence brief and the three
angle and three criteria sentences as the oracle strings of `env`),
serializes it with `json.dumps(..., indent=2)`, and counts its
whitespace-separated words as the token metric. -/
def call_test_api (_brand _platform _goal _tone : Str) (env : ProviderEnv) :
    Str × Metrics :=
  let response_text := dumpsInd 0 (testObj env)
  (response_text,
    { provider := ("test").toList, model := ("faker").toList,
      tokens_used := countWords response_text, total_tokens := countWords response_text,
      prompt_tokens := 0, success := none, parse_error := none, error := none })

/-- The result dict of `generate_campaign_brief`.  `raw_response` is only
attached on the degraded path of a real provider. -/
structure GenResult where
  brief : Json
  angles : Json
  criteria : Json
  metrics : Metrics
  raw_response : Option Str
deriving DecidableEq

/-- Fallback angles of the test-provider error branch. -/
def testFallbackAngles : List Json :=
  [.str ("Test generation failed").toList,
   .str ("Please check configuration").toList,
   .str ("Contact support").toList]

/-- Fallback criteria of the test-provider error branch. -/
def testFallbackCriteria : List Json :=
  [.str ("Test provider issue").toList,
   .str ("JSON parsing failed").toList,
   .str ("Debug needed").toList]

/-- Fallback angles of the real-provider degraded envelope. -/
def errFallbackAngles : List Json :=
  [.str ("Error in generation").toList,
   .str ("Please try again").toList,
   .str ("Check configuration").toList]

/-- Fallback criteria of the real-provider degraded envelope. -/
def errFallbackCriteria : List Json :=
  [.str ("Model response invalid").toList,
   .str ("JSON parsing failed").toList,
   .str ("Contact support").toList]

/-- Prefix of the test-provider fallback brief. -/
def testErrorPre : Str := "Test provider error for ".toList

/-- Prefix of the degraded-envelope brief. -/
def errorGenPre : Str := "Error generating brief for ".toList

/-- The `": "` joining a brand name to an error message. -/
def colonSep : Str := ": ".toList

/-- The provider tag forced by test mode. -/
def pTest : Str := "test".toList

/-- The local provider tag. -/
def pOllama : Str := "ollama".toList

/-- The hosted provider tag. -/
def pOpenai : Str := "openai".toList

/-- `generate_campaign_brief` (`llm.py` lines 319-394).  `pytestActive`
models `"pytest" in sys.modules`.  The test branch parses the synthetic
JSON inside a `try` whose bare `except Exception` turns any failure into
the hardcoded test fallback.  The real branches call the adapter OUTSIDE
any `try`, so an adapter exception propagates; only the `ValueError` of
`parse_json_response` is caught and turned into the degraded envelope,
which carries the raw provider text. -/
def generate_campaign_brief (st : Settings) (pytestActive : Bool)
    (brand platform goal tone : Str) (api_token : Option Str)
    (env : ProviderEnv) : Except PyExc GenResult :=
  let provider := if pytestActive || st.AI_PROVIDER == pTest then pTest else st.AI_PROVIDER
  if provider = pTest then
    let tr := call_test_api brand platform goal tone env
    let testFallback : Str → GenResult := fun emsg =>
      { brief := .str (testErrorPre ++ brand ++ colonSep ++ emsg),
        angles := .arr testFallbackAngles, criteria := .arr testFallbackCriteria,
        metrics := { tr.2 with success := some false, parse_error := some emsg },
        raw_response := none }
    match pyLoads tr.1 with
    | .error m => .ok (testFallback m)
    | .ok brief_data =>
      match pyIndex kBrief brief_data with
      | .error e => .ok (testFallback (pyExcStr e))
      | .ok b =>
        match pyIndex kAngles brief_data with
        | .error e => .ok (testFallback (pyExcStr e))
        | .ok a =>
          match pyIndex kCriteria brief_data with
          | .error e => .ok (testFallback (pyExcStr e))
          | .ok c =>
            .ok { brief := b, angles := a, criteria := c,
                  metrics := { tr.2 with success := some true }, raw_response := none }
  else
    let system_prompt := build_system_prompt
    let user_prompt := build_user_prompt brand platform goal tone
    let full_prompt := system_prompt ++ ("\n\n").toList ++ user_prompt
    let adapterResult : Except PyExc (Str × Metrics) :=
      if provider = pOllama then call_ollama_api full_prompt st env
      else if provider = pOpenai then
        call_openai_api system_prompt user_prompt api_token st env
      else .error (.valueError (msgUnsupported ++ provider))
    match adapterResult with
    | .error e => .error e
    | .ok (response_text, metrics) =>
      match parse_json_response response_text with
      | .ok brief_data =>
        match pyIndex kBrief brief_data with
        | .error e => .error e
        | .ok b =>
          match pyIndex kAngles brief_data with
          | .error e => .error e
          | .ok a =>
            match pyIndex kCriteria brief_data with
            | .error e => .error e
            | .ok c =>
              .ok { brief := b, angles := a, criteria := c,
                    metrics := { metrics with success := some true },
                    raw_response := none }
      | .error (.valueError m) =>
        .ok { brief := .str (errorGenPre ++ brand ++ colonSep ++ m),
              angles := .arr errFallbackAngles, criteria := .arr errFallbackCriteria,
              metrics := { metrics with success := some false, parse_error := some m },
              raw_response := some response_text }
      | .error e => .error e

/-- The interior of a fenced `json` code block when the text holds a
complete one: the text between the `"```json"` tag and the next closing
`"```"`, stripped. -/
def fencedInterior (t : Str) : Option Str :=
  match pyFind fenceTag t with
  | none => none
  | some i =>
    match pyFindFrom fence3 t (i + 7) with
    | none => none
    | some j => some (pyStrip (pySlice t (i + 7) j))

/-- The substring from the first `"{"` to the last `"}"` of the text
(empty when the last `"}"` stands before the first `"{"`). -/
def braceSpan (t : Str) : Str :=
  match pyFind ['\x7b'] t, lastIdxOf '\x7d' t with
  | some a, some b => pySlice t a (b + 1)
  | _, _ => t

/-- Modelled from the specification wording of the Response Normalizer:
trim whitespace; when a fenced code block tagged `json` is present, take
only its interior; otherwise, when the text holds both a `"{"` and a
`"}"`, take the substring from the first `"{"` to the last `"}"`;
otherwise the trimmed text itself is the candidate. -/
def normalize_spec (s : Str) : Str :=
  let t := pyStrip s
  match fencedInterior t with
  | some inner => inner
  | none =>
    if hasSubstr ['\x7b'] t && hasSubstr ['\x7d'] t then braceSpan t else t

/-- An object of the documented response shape: a narrative `brief` and
two triads. -/
def briefObj (b a1 a2 a3 c1 c2 c3 : Str) : Json :=
  .obj [(kBrief, .str b),
        (kAngles, .arr [.str a1, .str a2, .str a3]),
        (kCriteria, .arr [.str c1, .str c2, .str c3])]


/-- Is a value a list of exactly three elements?  The only shape test the
validator applies to `angles` and `criteria`. -/
def isList3 : Json → Bool
  | .arr xs => xs.length == 3
  | _ => false

/-- A string of nothing but JSON whitespace. -/
def wsOnly (w : Str) : Prop := ∀ c ∈ w, isJsonWs c = true

/-- Validity bound carried by every `Char`, in `Nat` form. -/
theorem char_valid_nat (c : Char) :
    c.toNat < 0xd800 ∨ (0xdfff < c.toNat ∧ c.toNat < 0x110000) := c.valid

/-- Decoding a freshly encoded hex digit gives the digit back. -/
theorem decHex_hexDig : ∀ k : Nat, k < 16 → decHex (hexDig k) = some k := by decide

/-- Recomposition of a number below `0x10000` from its four hex digits. -/
theorem hex4_recompose (n : Nat) (h : n < 0x10000) :
    ((n / 4096 % 16 * 16 + n / 256 % 16) * 16 + n / 16 % 16) * 16 + n % 16 = n := by
  omega

/-- Scanning four freshly written hex digits recovers their value. -/
theorem parseHex4Esc_toHex4 (n : Nat) (h : n < 0x10000) (r : Str) :
    parseHex4Esc (toHex4 n ++ r) = hexToChar n r := by
  have h1 := decHex_hexDig (n / 4096 % 16) (by omega)
  have h2 := decHex_hexDig (n / 256 % 16) (by omega)
  have h3 := decHex_hexDig (n / 16 % 16) (by omega)
  have h4 := decHex_hexDig (n % 16) (by omega)
  simp only [toHex4, List.cons_append, List.nil_append, parseHex4Esc, h1, h2, h3, h4]
  rw [hex4_recompose n h]

/-- A non-surrogate escape value stands for its own character. -/
theorem hexToChar_bmp (n : Nat) (hval : n < 0xd800 ∨ 0xdfff < n) (r : Str) :
    hexToChar n r = some (Char.ofNat n, r) := by
  rw [hexToChar, if_pos hval]

/-- Scanning four freshly written low-surrogate digits recovers the
combined character. -/
theorem parseLowSurrogate_toHex4 (n m : Nat) (h : m < 0x10000)
    (hm : 0xdc00 ≤ m ∧ m ≤ 0xdfff) (r : Str) :
    parseLowSurrogate n (toHex4 m ++ r) =
      some (Char.ofNat (0x10000 + (n - 0xd800) * 0x400 + (m - 0xdc00)), r) := by
  have h1 := decHex_hexDig (m / 4096 % 16) (by omega)
  have h2 := decHex_hexDig (m / 256 % 16) (by omega)
  have h3 := decHex_hexDig (m / 16 % 16) (by omega)
  have h4 := decHex_hexDig (m % 16) (by omega)
  simp only [toHex4, List.cons_append, List.nil_append, parseLowSurrogate, h1, h2, h3, h4]
  rw [hex4_recompose m h, if_pos hm]

/-- After a `u`, the escape scanner reads four hex digits. -/
theorem parseEscape_u (r : Str) : parseEscape ('u' :: r) = parseHex4Esc r := by
  rw [parseEscape, if_neg (by decide), if_neg (by decide), if_neg (by decide),
    if_neg (by decide), if_neg (by decide), if_neg (by decide), if_neg (by decide),
    if_neg (by decide), if_pos rfl]

/-- A backslash hands over to the escape scanner. -/
theorem psbF_esc (fuel : Nat) (d : Char) (tail r : Str)
    (h : parseEscape tail = some (d, r)) :
    parseStringBodyF (fuel + 1) ('\\' :: tail) =
      (parseStringBodyF fuel r).map (fun p => (d :: p.1, p.2)) := by
  rw [parseStringBodyF, if_neg (by decide), if_pos rfl, h]

/-- The scanner keeps a verbatim character that needs no escape. -/
theorem psbF_verbatim (fuel : Nat) (c : Char) (r : Str) (h1 : ¬c = '\x22')
    (h2 : ¬c = '\\') (h3 : ¬c.toNat < 0x20) :
    parseStringBodyF (fuel + 1) (c :: r) =
      (parseStringBodyF fuel r).map (fun p => (c :: p.1, p.2)) := by
  rw [parseStringBodyF, if_neg h1, if_neg h2, if_neg h3]

/-- One encoded character scans back to itself: the escape (or verbatim
character) `json.dumps` writes for `c` is decoded by the scanner to `c`,
whatever follows. -/
theorem psbF_encodeChar (fuel : Nat) (c : Char) (tail : Str) :
    parseStringBodyF (fuel + 1) (encodeChar c ++ tail) =
      (parseStringBodyF fuel tail).map (fun p => (c :: p.1, p.2)) := by
  by_cases h1 : c = '\x22'
  · subst h1; rfl
  by_cases h2 : c = '\\'
  · subst h2; rfl
  by_cases h3 : c = '\x08'
  · subst h3; rfl
  by_cases h4 : c = '\x09'
  · subst h4; rfl
  by_cases h5 : c = '\x0a'
  · subst h5; rfl
  by_cases h6 : c = '\x0c'
  · subst h6; rfl
  by_cases h7 : c = '\x0d'
  · subst h7; rfl
  rw [encodeChar, if_neg h1, if_neg h2, if_neg h3, if_neg h4, if_neg h5, if_neg h6,
    if_neg h7]
  by_cases h8 : c.toNat < 0x20
  · rw [if_pos h8, List.cons_append, List.cons_append]
    refine psbF_esc fuel c _ tail ?_
    rw [parseEscape_u, parseHex4Esc_toHex4 _ (by omega), hexToChar_bmp _ (by omega),
      Char.ofNat_toNat]
  rw [if_neg h8]
  by_cases h9 : c.toNat < 0x7f
  · rw [if_pos h9, List.cons_append, List.nil_append]
    exact psbF_verbatim fuel c tail h1 h2 h8
  rw [if_neg h9]
  by_cases h10 : c.toNat < 0x10000
  · rw [if_pos h10, List.cons_append, List.cons_append]
    refine psbF_esc fuel c _ tail ?_
    have hval : c.toNat < 0xd800 ∨ 0xdfff < c.toNat := by
      rcases char_valid_nat c with h | ⟨h, _⟩
      · exact Or.inl h
      · exact Or.inr h
    rw [parseEscape_u, parseHex4Esc_toHex4 _ h10, hexToChar_bmp _ hval, Char.ofNat_toNat]
  rw [if_neg h10]
  have hlt : c.toNat < 0x110000 := by
    rcases char_valid_nat c with h | ⟨_, h⟩ <;> omega
  rw [List.append_assoc, List.cons_append, List.cons_append]
  refine psbF_esc fuel c _ tail ?_
  rw [parseEscape_u, parseHex4Esc_toHex4 _ (by omega)]
  have hno : ¬(0xd800 + (c.toNat - 0x10000) / 0x400 < 0xd800 ∨
      0xdfff < 0xd800 + (c.toNat - 0x10000) / 0x400) := by omega
  rw [hexToChar, if_neg hno, if_pos (by omega), List.cons_append, List.cons_append,
    highSurrogateCont]
  rw [parseLowSurrogate_toHex4 _ _ (by omega) (by omega)]
  have harg : 0x10000 + (0xd800 + (c.toNat - 0x10000) / 0x400 - 0xd800) * 0x400 +
      (0xdc00 + (c.toNat - 0x10000) % 0x400 - 0xdc00) = c.toNat := by omega
  rw [harg, Char.ofNat_toNat]

/-- Each character contributes at least one character of output. -/
theorem encodeChar_length_pos (c : Char) : 1 ≤ (encodeChar c).length := by
  rw [encodeChar]
  repeat' split
  all_goals simp [toHex4]

/-- Encoding never shortens a string. -/
theorem encodeString_length_ge (s : Str) : s.length ≤ (encodeString s).length := by
  induction s with
  | nil => simp [encodeString]
  | cons c t ih =>
    have := encodeChar_length_pos c
    simp only [encodeString, List.length_append, List.length_cons]
    omega

/-- With fuel beyond the length of the decoded string, the scanner undoes
the encoding of a whole string value up to its closing quote. -/
theorem psbF_encodeString (s : Str) : ∀ (fuel : Nat) (r : Str),
    parseStringBodyF (s.length + (fuel + 1)) (encodeString s ++ '\x22' :: r) =
      some (s, r) := by
  induction s with
  | nil => intro fuel r; rfl
  | cons c t ih =>
    intro fuel r
    have hidx : (c :: t).length + (fuel + 1) = (t.length + (fuel + 1)) + 1 := by
      simp [List.length_cons]; omega
    rw [hidx]
    have hsplit : encodeString (c :: t) ++ '\x22' :: r =
        encodeChar c ++ (encodeString t ++ '\x22' :: r) := by
      simp [encodeString, List.append_assoc]
    rw [hsplit, psbF_encodeChar, ih fuel r]; rfl

/-- The scanner undoes the encoding of a whole string value. -/
theorem parseStringBody_encode (s r : Str) :
    parseStringBody (encodeString s ++ '\x22' :: r) = some (s, r) := by
  have hle : s.length ≤ (encodeString s ++ '\x22' :: r).length := by
    simp only [List.length_append, List.length_cons]
    have := encodeString_length_ge s
    omega
  have hidx : (encodeString s ++ '\x22' :: r).length + 1 =
      s.length + (((encodeString s ++ '\x22' :: r).length - s.length) + 1) := by
    omega
  rw [parseStringBody, hidx, psbF_encodeString]

/-- Skipping starts after a non-whitespace head. -/
theorem skipWs_cons_not {c : Char} (t : Str) (h : isJsonWs c = false) :
    skipWs (c :: t) = c :: t := by
  simp [skipWs, List.dropWhile_cons, h]

/-- Skipping passes over a whitespace head. -/
theorem skipWs_cons_ws {c : Char} (t : Str) (h : isJsonWs c = true) :
    skipWs (c :: t) = skipWs t := by
  simp [skipWs, List.dropWhile_cons, h]

/-- Skipping passes over a whole whitespace block. -/
theorem skipWs_append (w t : Str) (h : wsOnly w) : skipWs (w ++ t) = skipWs t := by
  induction w with
  | nil => simp
  | cons c w ih =>
    have hc : isJsonWs c = true := h c (by simp)
    rw [List.cons_append, skipWs_cons_ws _ hc]
    exact ih (fun d hd => h d (by simp [hd]))

/-- Indentation blocks are whitespace. -/
theorem wsOnly_pad (n : Nat) : wsOnly (pad n) := by
  intro c hc
  have := List.eq_of_mem_replicate hc
  subst this; rfl

/-- A value position whose significant text is a rendered string parses to
that string. -/
theorem pv_string_at (fuel : Nat) (s x r : Str)
    (h : skipWs s = '\x22' :: (encodeString x ++ '\x22' :: r)) :
    parseValue (fuel + 1) s = .ok (.str x, r) := by
  rw [parseValue, h]
  simp only []
  rw [if_neg (by decide), if_neg (by decide), if_pos (by decide),
    parseStrLit, parseStringBody_encode]

/-- A value position whose significant text is a rendered three-string
array parses to that array: the hypotheses walk the brackets, the three
rendered strings and the separating commas, whitespace allowed between
all tokens. -/
theorem pv_arr3_at (fuel : Nat) (s t0 t1 t2 t3 t4 t5 : Str) (x1 x2 x3 : Str) (r : Str)
    (h0 : skipWs s = '[' :: t0)
    (h1 : skipWs t0 = '\x22' :: (encodeString x1 ++ '\x22' :: t1))
    (h2 : skipWs t1 = ',' :: t2)
    (h3 : skipWs t2 = '\x22' :: (encodeString x2 ++ '\x22' :: t3))
    (h4 : skipWs t3 = ',' :: t4)
    (h5 : skipWs t4 = '\x22' :: (encodeString x3 ++ '\x22' :: t5))
    (h6 : skipWs t5 = ']' :: r) :
    parseValue (fuel + 5) s = .ok (.arr [.str x1, .str x2, .str x3], r) := by
  rw [parseValue, h0]
  simp only []
  rw [if_neg (by decide), if_pos (by decide), h1]
  simp only []
  rw [parseElems, pv_string_at (fuel + 2) _ x1 t1 (by rw [skipWs_cons_not _ (by decide)])]
  simp only []
  rw [h2]
  simp only []
  rw [parseElems, pv_string_at (fuel + 1) t2 x2 t3 h3]
  simp only []
  rw [h4]
  simp only []
  rw [parseElems, pv_string_at fuel t4 x3 t5 h5]
  simp only []
  rw [h6]
  simp

/-- A value position whose significant text is a rendered three-member
object parses to that object: the hypotheses walk the braces, the three
rendered keys with their colons, the three values (given by their own
parses) and the separating commas, whitespace allowed between all
tokens. -/
theorem pv_obj3_at (fuel : Nat) (s t0 t1 t2 u1 u2 u3 r1 r2 r3 r : Str)
    (k1 k2 k3 : Str) (v1 v2 v3 : Json)
    (h0 : skipWs s = '\x7b' :: t0)
    (h1 : skipWs t0 = '\x22' :: (encodeString k1 ++ '\x22' :: ':' :: u1))
    (hv1 : parseValue (fuel + 7) u1 = .ok (v1, r1))
    (hc1 : skipWs r1 = ',' :: t1)
    (h2 : skipWs t1 = '\x22' :: (encodeString k2 ++ '\x22' :: ':' :: u2))
    (hv2 : parseValue (fuel + 6) u2 = .ok (v2, r2))
    (hc2 : skipWs r2 = ',' :: t2)
    (h3 : skipWs t2 = '\x22' :: (encodeString k3 ++ '\x22' :: ':' :: u3))
    (hv3 : parseValue (fuel + 5) u3 = .ok (v3, r3))
    (hc3 : skipWs r3 = '\x7d' :: r) :
    parseValue (fuel + 9) s = .ok (.obj [(k1, v1), (k2, v2), (k3, v3)], r) := by
  rw [parseValue, h0]
  simp only []
  rw [if_pos (by decide), h1]
  simp only []
  rw [if_neg (by decide)]
  rw [parseMembers]
  simp only []
  rw [if_pos (by decide), parseStringBody_encode]
  simp only []
  rw [skipWs_cons_not _ (by decide)]
  simp only []
  rw [if_pos (by decide), hv1]
  simp only []
  rw [hc1]
  simp only []
  rw [if_pos (by decide), h2]
  rw [parseMembers]
  simp only []
  rw [if_pos (by decide), parseStringBody_encode]
  simp only []
  rw [skipWs_cons_not _ (by decide)]
  simp only []
  rw [if_pos (by decide), hv2]
  simp only []
  rw [hc2]
  simp only []
  rw [if_pos (by decide), h3]
  rw [parseMembers]
  simp only []
  rw [if_pos (by decide), parseStringBody_encode]
  simp only []
  rw [skipWs_cons_not _ (by decide)]
  simp only []
  rw [if_pos (by decide), hv3]
  simp only []
  rw [hc3]
  simp

theorem dumps_briefObj_norm (b a1 a2 a3 c1 c2 c3 : Str) :
    dumps (briefObj b a1 a2 a3 c1 c2 c3) =
      '\x7b' ::
      '\x22' :: (encodeString kBrief ++
      '\x22' :: ':' :: ' ' ::
      '\x22' :: (encodeString b ++
      '\x22' :: ',' :: ' ' ::
      '\x22' :: (encodeString kAngles ++
      '\x22' :: ':' :: ' ' :: '[' ::
      '\x22' :: (encodeString a1 ++
      '\x22' :: ',' :: ' ' ::
      '\x22' :: (encodeString a2 ++
      '\x22' :: ',' :: ' ' ::
      '\x22' :: (encodeString a3 ++
      '\x22' :: ']' :: ',' :: ' ' ::
      '\x22' :: (encodeString kCriteria ++
      '\x22' :: ':' :: ' ' :: '[' ::
      '\x22' :: (encodeString c1 ++
      '\x22' :: ',' :: ' ' ::
      '\x22' :: (encodeString c2 ++
      '\x22' :: ',' :: ' ' ::
      '\x22' :: (encodeString c3 ++
      '\x22' :: ']' :: '\x7d' :: [])))))))))) := by
  simp [dumps, dumpsMembers, dumpsElems, renderString, briefObj, List.append_assoc]

theorem dumpsInd_briefObj_norm (b a1 a2 a3 c1 c2 c3 : Str) :
    dumpsInd 0 (briefObj b a1 a2 a3 c1 c2 c3) =
      '\x7b' :: '\n' :: ' ' :: ' ' ::
      '\x22' :: (encodeString kBrief ++
      '\x22' :: ':' :: ' ' ::
      '\x22' :: (encodeString b ++
      '\x22' :: ',' :: '\n' :: ' ' :: ' ' ::
      '\x22' :: (encodeString kAngles ++
      '\x22' :: ':' :: ' ' :: '[' :: '\n' :: ' ' :: ' ' :: ' ' :: ' ' ::
      '\x22' :: (encodeString a1 ++
      '\x22' :: ',' :: '\n' :: ' ' :: ' ' :: ' ' :: ' ' ::
      '\x22' :: (encodeString a2 ++
      '\x22' :: ',' :: '\n' :: ' ' :: ' ' :: ' ' :: ' ' ::
      '\x22' :: (encodeString a3 ++
      '\x22' :: '\n' :: ' ' :: ' ' :: ']' :: ',' :: '\n' :: ' ' :: ' ' ::
      '\x22' :: (encodeString kCriteria ++
      '\x22' :: ':' :: ' ' :: '[' :: '\n' :: ' ' :: ' ' :: ' ' :: ' ' ::
      '\x22' :: (encodeString c1 ++
      '\x22' :: ',' :: '\n' :: ' ' :: ' ' :: ' ' :: ' ' ::
      '\x22' :: (encodeString c2 ++
      '\x22' :: ',' :: '\n' :: ' ' :: ' ' :: ' ' :: ' ' ::
      '\x22' :: (encodeString c3 ++
      '\x22' :: '\n' :: ' ' :: ' ' :: ']' :: '\n' :: '\x7d' :: [])))))))))) := by
  simp [dumpsInd, dumpsIndMembers, dumpsIndElems, pad, renderString, briefObj,
    List.replicate, List.append_assoc]

theorem pv_dumps_briefObj (fuel : Nat) (b a1 a2 a3 c1 c2 c3 : Str) :
    parseValue (fuel + 9) (dumps (briefObj b a1 a2 a3 c1 c2 c3)) =
      .ok (briefObj b a1 a2 a3 c1 c2 c3, []) := by
  rw [dumps_briefObj_norm]
  show _ = Except.ok (.obj [(kBrief, .str b),
    (kAngles, .arr [.str a1, .str a2, .str a3]),
    (kCriteria, .arr [.str c1, .str c2, .str c3])], [])
  refine pv_obj3_at fuel _ _ _ _ _ _ _ _ _ _ _ kBrief kAngles kCriteria
    (.str b) (.arr [.str a1, .str a2, .str a3]) (.arr [.str c1, .str c2, .str c3])
    (skipWs_cons_not _ (by decide))
    (skipWs_cons_not _ (by decide))
    (pv_string_at (fuel + 6) _ b _
      (by rw [skipWs_cons_ws _ (by decide), skipWs_cons_not _ (by decide)]))
    (skipWs_cons_not _ (by decide))
    (by rw [skipWs_cons_ws _ (by decide), skipWs_cons_not _ (by decide)])
    (pv_arr3_at (fuel + 1) _ _ _ _ _ _ _ a1 a2 a3 _
      (by rw [skipWs_cons_ws _ (by decide), skipWs_cons_not _ (by decide)])
      (skipWs_cons_not _ (by decide))
      (skipWs_cons_not _ (by decide))
      (by rw [skipWs_cons_ws _ (by decide), skipWs_cons_not _ (by decide)])
      (skipWs_cons_not _ (by decide))
      (by rw [skipWs_cons_ws _ (by decide), skipWs_cons_not _ (by decide)])
      (skipWs_cons_not _ (by decide)))
    (skipWs_cons_not _ (by decide))
    (by rw [skipWs_cons_ws _ (by decide), skipWs_cons_not _ (by decide)])
    (pv_arr3_at fuel _ _ _ _ _ _ _ c1 c2 c3 _
      (by rw [skipWs_cons_ws _ (by decide), skipWs_cons_not _ (by decide)])
      (skipWs_cons_not _ (by decide))
      (skipWs_cons_not _ (by decide))
      (by rw [skipWs_cons_ws _ (by decide), skipWs_cons_not _ (by decide)])
      (skipWs_cons_not _ (by decide))
      (by rw [skipWs_cons_ws _ (by decide), skipWs_cons_not _ (by decide)])
      (skipWs_cons_not _ (by decide)))
    (skipWs_cons_not _ (by decide))

theorem pv_dumpsInd_briefObj (fuel : Nat) (b a1 a2 a3 c1 c2 c3 : Str) :
    parseValue (fuel + 9) (dumpsInd 0 (briefObj b a1 a2 a3 c1 c2 c3)) =
      .ok (briefObj b a1 a2 a3 c1 c2 c3, []) := by
  rw [dumpsInd_briefObj_norm]
  show _ = Except.ok (.obj [(kBrief, .str b),
    (kAngles, .arr [.str a1, .str a2, .str a3]),
    (kCriteria, .arr [.str c1, .str c2, .str c3])], [])
  refine pv_obj3_at fuel _ _ _ _ _ _ _ _ _ _ _ kBrief kAngles kCriteria
    (.str b) (.arr [.str a1, .str a2, .str a3]) (.arr [.str c1, .str c2, .str c3])
    (skipWs_cons_not _ (by decide))
    (by rw [skipWs_cons_ws _ (by decide), skipWs_cons_ws _ (by decide),
      skipWs_cons_ws _ (by decide), skipWs_cons_not _ (by decide)])
    (pv_string_at (fuel + 6) _ b _
      (by rw [skipWs_cons_ws _ (by decide), skipWs_cons_not _ (by decide)]))
    (skipWs_cons_not _ (by decide))
    (by rw [skipWs_cons_ws _ (by decide), skipWs_cons_ws _ (by decide),
      skipWs_cons_ws _ (by decide), skipWs_cons_not _ (by decide)])
    (pv_arr3_at (fuel + 1) _ _ _ _ _ _ _ a1 a2 a3 _
      (by rw [skipWs_cons_ws _ (by decide), skipWs_cons_not _ (by decide)])
      (by rw [skipWs_cons_ws _ (by decide), skipWs_cons_ws _ (by decide),
        skipWs_cons_ws _ (by decide), skipWs_cons_ws _ (by decide),
        skipWs_cons_ws _ (by decide), skipWs_cons_not _ (by decide)])
      (skipWs_cons_not _ (by decide))
      (by rw [skipWs_cons_ws _ (by decide), skipWs_cons_ws _ (by decide),
        skipWs_cons_ws _ (by decide), skipWs_cons_ws _ (by decide),
        skipWs_cons_ws _ (by decide), skipWs_cons_not _ (by decide)])
      (skipWs_cons_not _ (by decide))
      (by rw [skipWs_cons_ws _ (by decide), skipWs_cons_ws _ (by decide),
        skipWs_cons_ws _ (by decide), skipWs_cons_ws _ (by decide),
        skipWs_cons_ws _ (by decide), skipWs_cons_not _ (by decide)])
      (by rw [skipWs_cons_ws _ (by decide), skipWs_cons_ws _ (by decide),
        skipWs_cons_ws _ (by decide), skipWs_cons_not _ (by decide)]))
    (skipWs_cons_not _ (by decide))
    (by rw [skipWs_cons_ws _ (by decide), skipWs_cons_ws _ (by decide),
      skipWs_cons_ws _ (by decide), skipWs_cons_not _ (by decide)])
    (pv_arr3_at fuel _ _ _ _ _ _ _ c1 c2 c3 _
      (by rw [skipWs_cons_ws _ (by decide), skipWs_cons_not _ (by decide)])
      (by rw [skipWs_cons_ws _ (by decide), skipWs_cons_ws _ (by decide),
        skipWs_cons_ws _ (by decide), skipWs_cons_ws _ (by decide),
        skipWs_cons_ws _ (by decide), skipWs_cons_not _ (by decide)])
      (skipWs_cons_not _ (by decide))
      (by rw [skipWs_cons_ws _ (by decide), skipWs_cons_ws _ (by decide),
        skipWs_cons_ws _ (by decide), skipWs_cons_ws _ (by decide),
        skipWs_cons_ws _ (by decide), skipWs_cons_not _ (by decide)])
      (skipWs_cons_not _ (by decide))
      (by rw [skipWs_cons_ws _ (by decide), skipWs_cons_ws _ (by decide),
        skipWs_cons_ws _ (by decide), skipWs_cons_ws _ (by decide),
        skipWs_cons_ws _ (by decide), skipWs_cons_not _ (by decide)])
      (by rw [skipWs_cons_ws _ (by decide), skipWs_cons_ws _ (by decide),
        skipWs_cons_ws _ (by decide), skipWs_cons_not _ (by decide)]))
    (by rw [skipWs_cons_ws _ (by decide), skipWs_cons_not _ (by decide)])

/-- `json.loads` undoes the default serialization of a brief-shaped
object. -/
theorem pyLoads_dumps_briefObj (b a1 a2 a3 c1 c2 c3 : Str) :
    pyLoads (dumps (briefObj b a1 a2 a3 c1 c2 c3)) =
      .ok (briefObj b a1 a2 a3 c1 c2 c3) := by
  have hf : 4 * (dumps (briefObj b a1 a2 a3 c1 c2 c3)).length + 16 =
      (4 * (dumps (briefObj b a1 a2 a3 c1 c2 c3)).length + 7) + 9 := by omega
  rw [pyLoads, hf, pv_dumps_briefObj]
  simp only []
  rw [if_pos (show skipWs [] = [] from rfl)]

/-- `json.loads` undoes the `indent=2` serialization of a brief-shaped
object. -/
theorem pyLoads_dumpsInd_briefObj (b a1 a2 a3 c1 c2 c3 : Str) :
    pyLoads (dumpsInd 0 (briefObj b a1 a2 a3 c1 c2 c3)) =
      .ok (briefObj b a1 a2 a3 c1 c2 c3) := by
  have hf : 4 * (dumpsInd 0 (briefObj b a1 a2 a3 c1 c2 c3)).length + 16 =
      (4 * (dumpsInd 0 (briefObj b a1 a2 a3 c1 c2 c3)).length + 7) + 9 := by omega
  rw [pyLoads, hf, pv_dumpsInd_briefObj]
  simp only []
  rw [if_pos (show skipWs [] = [] from rfl)]

theorem validateBrief_briefObj (b a1 a2 a3 c1 c2 c3 : Str) (hw : ¬countWords b < 10) :
    validateBrief (briefObj b a1 a2 a3 c1 c2 c3) =
      .ok (briefObj b a1 a2 a3 c1 c2 c3) := by
  have e1 : (kBrief == kBrief) = true := by decide
  have e2 : (kAngles == kBrief) = false := by decide
  have e3 : (kCriteria == kBrief) = false := by decide
  have e4 : (kBrief == kAngles) = false := by decide
  have e5 : (kAngles == kAngles) = true := by decide
  have e6 : (kCriteria == kAngles) = false := by decide
  have e7 : (kBrief == kCriteria) = false := by decide
  have e8 : (kAngles == kCriteria) = false := by decide
  have e9 : (kCriteria == kCriteria) = true := by decide
  simp [validateBrief, validateFields, briefObj, pyIn, pyIndex,
    e1, e2, e3, e4, e5, e6, e7, e8, e9, hw]

theorem validateBrief_ok_shape (data d : Json) (h : validateBrief data = .ok d) :
    d = data ∧
    ∃ bs xs ys, pyIndex kBrief data = .ok (.str bs) ∧ ¬countWords bs < 10 ∧
      pyIndex kAngles data = .ok (.arr xs) ∧ xs.length = 3 ∧
      pyIndex kCriteria data = .ok (.arr ys) ∧ ys.length = 3 := by
  unfold validateBrief validateFields at h
  repeat' split at h
  all_goals simp_all

theorem pyStrip_sandwich (c d : Char) (xs : Str) (hc : isPySpace c = false)
    (hd : isPySpace d = false) :
    pyStrip (c :: (xs ++ [d])) = c :: (xs ++ [d]) := by
  simp [pyStrip, List.dropWhile_cons, hc, hd, List.reverse_append]

theorem pyFind_head (c : Char) (t : Str) : pyFind [c] (c :: t) = some 0 := by
  simp [pyFind, pyFindGo, headMatch]

theorem pyFindGo_single_isSome (c : Char) (s : Str) (h : c ∈ s) :
    ∀ i, (pyFindGo [c] s i).isSome = true := by
  induction s with
  | nil => cases h
  | cons d t ih =>
    intro i
    rw [pyFindGo]
    by_cases hdc : (headMatch [c] (d :: t)) = true
    · rw [if_pos hdc]; rfl
    · rw [if_neg hdc]
      have hmem : c ∈ t := by
        rcases List.mem_cons.mp h with h1 | h1
        · exfalso; apply hdc; simp [headMatch, h1]
        · exact h1
      exact ih hmem (i + 1)

theorem hasSubstr_single_of_mem (c : Char) (s : Str) (h : c ∈ s) :
    hasSubstr [c] s = true := by
  rw [hasSubstr, pyFind]
  exact pyFindGo_single_isSome c s h 0

theorem lastIdxOf_append_last (c : Char) (s : Str) :
    lastIdxOf c (s ++ [c]) = some s.length := by
  simp [lastIdxOf, List.reverse_append, List.findIdx?_cons]

theorem extract_candidate_obj (fs : List (Str × Json))
    (hfence : hasSubstr fenceTag (dumps (Json.obj fs)) = false) :
    extract_candidate (dumps (Json.obj fs)) = dumps (Json.obj fs) := by
  have hshape : dumps (Json.obj fs) = '\x7b' :: (dumpsMembers fs ++ ['\x7d']) := rfl
  have hstrip : pyStrip (dumps (Json.obj fs)) = dumps (Json.obj fs) := by
    rw [hshape]; exact pyStrip_sandwich _ _ _ (by decide) (by decide)
  have hfind : pyFind fenceTag (dumps (Json.obj fs)) = none := by
    cases hpf : pyFind fenceTag (dumps (Json.obj fs)) with
    | none => rfl
    | some i =>
      simp only [hasSubstr, hpf, Option.isSome_some] at hfence
      exact absurd hfence (by decide)
  have h1 : pyFind ['\x7b'] (dumps (Json.obj fs)) = some 0 := by
    rw [hshape]; exact pyFind_head _ _
  have h2 : hasSubstr ['\x7d'] (dumps (Json.obj fs)) = true := by
    refine hasSubstr_single_of_mem _ _ ?_
    rw [hshape]; simp
  have h3 : lastIdxOf '\x7d' (dumps (Json.obj fs)) = some ((dumpsMembers fs).length + 1) := by
    rw [hshape]
    have hh : '\x7b' :: (dumpsMembers fs ++ ['\x7d']) =
        ('\x7b' :: dumpsMembers fs) ++ ['\x7d'] := by simp
    rw [hh, lastIdxOf_append_last]
    simp
  have hcond : (hasSubstr ['\x7b'] (dumps (Json.obj fs)) &&
      hasSubstr ['\x7d'] (dumps (Json.obj fs))) = true := by
    simp only [hasSubstr, h1, Option.isSome_some, Bool.true_and]
    exact h2
  rw [extract_candidate]
  simp only [hstrip, hfind, if_pos hcond, h1, h3, Option.getD_some]
  rw [hshape]
  simp [pySlice, List.take_of_length_le]

/-- `parse_json_response` undoes the default serialization of a
brief-shaped object whose brief has at least 10 words and whose
serialization does not contain the fence tag. -/
theorem parse_json_response_briefObj (b a1 a2 a3 c1 c2 c3 : Str)
    (hw : ¬countWords b < 10)
    (hfence : hasSubstr fenceTag (dumps (briefObj b a1 a2 a3 c1 c2 c3)) = false) :
    parse_json_response (dumps (briefObj b a1 a2 a3 c1 c2 c3)) =
      .ok (briefObj b a1 a2 a3 c1 c2 c3) := by
  have hex : extract_candidate (dumps (briefObj b a1 a2 a3 c1 c2 c3)) =
      dumps (briefObj b a1 a2 a3 c1 c2 c3) := extract_candidate_obj _ hfence
  rw [parse_json_response, hex, pyLoads_dumps_briefObj]
  simp only []
  rw [validateBrief_briefObj _ _ _ _ _ _ _ hw]

/-- A successful single-character search means the character occurs. -/
theorem pyFindGo_single_mem (c : Char) (s : Str) :
    ∀ i, (pyFindGo [c] s i).isSome = true → c ∈ s := by
  induction s with
  | nil =>
    intro i h
    simp [pyFindGo, headMatch] at h
  | cons d t ih =>
    intro i h
    rw [pyFindGo] at h
    by_cases hdc : (headMatch [c] (d :: t)) = true
    · simp [headMatch] at hdc
      simp [hdc]
    · rw [if_neg hdc] at h
      exact List.mem_cons_of_mem d (ih (i + 1) h)

/-- A successful single-character `find` means the character occurs. -/
theorem pyFind_single_mem (c : Char) (s : Str)
    (h : (pyFind [c] s).isSome = true) : c ∈ s :=
  pyFindGo_single_mem c s 0 h

/-- A character that occurs has a last occurrence. -/
theorem lastIdxOf_isSome_of_mem (c : Char) (s : Str) (h : c ∈ s) :
    (lastIdxOf c s).isSome = true := by
  rw [lastIdxOf]
  cases hf : List.findIdx? (· == c) s.reverse with
  | some j => rfl
  | none =>
    exfalso
    have hall := List.findIdx?_eq_none_iff.mp hf
    have hc := hall c (List.mem_reverse.mpr h)
    simp at hc

/-- C4: `parse_json_response` extracts its candidate JSON text by exactly
the documented steps — trim; when a fenced `json` block is present (the
hypothesis asks the block to be closed, the only case in which the
wording "take only its interior" describes a definite result), take only
its interior; otherwise, when both braces occur, take the greedy span
from the first `"{"` to the last `"}"`; otherwise keep the trimmed text —
and any parse failure of the candidate is raised as a `ValueError`
carrying the parser message. -/
theorem C4_normalizer_steps (s : Str)
    (hfence : (pyFind fenceTag (pyStrip s)).isSome = true →
      (pyFindFrom fence3 (pyStrip s)
        ((pyFind fenceTag (pyStrip s)).getD 0 + 7)).isSome = true) :
    extract_candidate s = normalize_spec s ∧
    ∀ m, pyLoads (extract_candidate s) = .error m →
      parse_json_response s = .error (.valueError (invalidPrefix ++ m)) := by
  constructor
  · rw [extract_candidate, normalize_spec]
    cases hpf : pyFind fenceTag (pyStrip s) with
    | some i =>
      have hsome := hfence (by rw [hpf]; rfl)
      rw [hpf] at hsome
      simp only [Option.getD_some] at hsome
      cases hff : pyFindFrom fence3 (pyStrip s) (i + 7) with
      | none =>
        rw [hff] at hsome
        exact absurd hsome (by decide)
      | some j =>
        simp only [fencedInterior, hpf, hff]
    | none =>
      simp only [fencedInterior, hpf]
      by_cases hbr : (hasSubstr ['\x7b'] (pyStrip s) &&
          hasSubstr ['\x7d'] (pyStrip s)) = true
      · rw [if_pos hbr, if_pos hbr]
        have hb1 : (pyFind ['\x7b'] (pyStrip s)).isSome = true := by
          have hh := hbr
          simp only [Bool.and_eq_true, hasSubstr] at hh
          exact hh.1
        have hb2 : (lastIdxOf '\x7d' (pyStrip s)).isSome = true := by
          have hh := hbr
          simp only [Bool.and_eq_true, hasSubstr] at hh
          exact lastIdxOf_isSome_of_mem _ _ (pyFind_single_mem _ _ hh.2)
        rcases Option.isSome_iff_exists.mp hb1 with ⟨a, ha⟩
        rcases Option.isSome_iff_exists.mp hb2 with ⟨bb, hbb⟩
        simp only [ha, hbb, braceSpan, Option.getD_some]
      · rw [if_neg hbr, if_neg hbr]
  · intro m hm
    rw [parse_json_response, hm]

/-- Witness for C4 at the documented probe input `"{ invalid json
structure"`: the fence hypothesis holds vacuously, the extraction follows
the documented steps, and the parse failure surfaces as a `ValueError`
carrying the scanner message. -/
theorem C4_witness :
    ((pyFind fenceTag (pyStrip (("\x7b invalid json structure").toList))).isSome = true →
      (pyFindFrom fence3 (pyStrip (("\x7b invalid json structure").toList))
        ((pyFind fenceTag
          (pyStrip (("\x7b invalid json structure").toList))).getD 0 + 7)).isSome = true) ∧
    extract_candidate (("\x7b invalid json structure").toList) =
      normalize_spec (("\x7b invalid json structure").toList) ∧
    parse_json_response (("\x7b invalid json structure").toList) =
      .error (.valueError (invalidPrefix ++ msgPropName)) :=
  ⟨by decide, (C4_normalizer_steps _ (by decide)).1,
    (C4_normalizer_steps _ (by decide)).2 msgPropName (by decide)⟩

/-- Counterexample to C5 as stated: a brief-shaped object of the claimed
form (brief of at least 10 words, three-element triads) whose first angle
contains the text "```json 7 ```".  Its serialization contains the fence
tag, so the extractor takes the fenced interior `7` instead of the
object; validation then probes the number `7` for membership, and
`parse_json_response` raises a `TypeError` instead of returning an equal
structure. -/
theorem C5_counterexample :
    10 ≤ countWords (("one two three four five six seven eight nine ten").toList) ∧
    parse_json_response (dumps (briefObj
      (("one two three four five six seven eight nine ten").toList)
      (("x```json 7 ``` y").toList) (("a2").toList) (("a3").toList)
      (("c1").toList) (("c2").toList) (("c3").toList))) =
      .error (.typeError msgNotIterable) := by decide

/-- C5 (amended): for every brief-shaped object whose brief has at least
10 words and whose serialization does not contain the "```json" fence
tag, serializing and then applying `parse_json_response` returns the
equal structure. -/
theorem C5_roundtrip (b a1 a2 a3 c1 c2 c3 : Str)
    (hw : 10 ≤ countWords b)
    (hfence : hasSubstr fenceTag (dumps (briefObj b a1 a2 a3 c1 c2 c3)) = false) :
    parse_json_response (dumps (briefObj b a1 a2 a3 c1 c2 c3)) =
      .ok (briefObj b a1 a2 a3 c1 c2 c3) :=
  parse_json_response_briefObj b a1 a2 a3 c1 c2 c3 (by omega) hfence

/-- Witness for C5 at a concrete conforming object. -/
theorem C5_witness :
    10 ≤ countWords (("one two three four five six seven eight nine ten").toList) ∧
    hasSubstr fenceTag (dumps (briefObj
      (("one two three four five six seven eight nine ten").toList)
      (("social reach").toList) (("creator duets").toList) (("behind the scenes").toList)
      (("high engagement").toList) (("brand fit").toList) (("audience match").toList))) =
      false ∧
    parse_json_response (dumps (briefObj
      (("one two three four five six seven eight nine ten").toList)
      (("social reach").toList) (("creator duets").toList) (("behind the scenes").toList)
      (("high engagement").toList) (("brand fit").toList) (("audience match").toList))) =
      .ok (briefObj
        (("one two three four five six seven eight nine ten").toList)
        (("social reach").toList) (("creator duets").toList) (("behind the scenes").toList)
        (("high engagement").toList) (("brand fit").toList) (("audience match").toList)) :=
  ⟨by decide, by decide, C5_roundtrip _ _ _ _ _ _ _ (by decide) (by decide)⟩

theorem validateBrief_ok_of_fields (j : Json) (bs : Str) (xs ys : List Json)
    (h1 : pyIn kBrief j = .ok true) (h2 : pyIn kAngles j = .ok true)
    (h3 : pyIn kCriteria j = .ok true)
    (hb : pyIndex kBrief j = .ok (.str bs)) (hw : ¬countWords bs < 10)
    (ha : pyIndex kAngles j = .ok (.arr xs)) (hxs : xs.length = 3)
    (hc : pyIndex kCriteria j = .ok (.arr ys)) (hys : ys.length = 3) :
    validateBrief j = .ok j := by
  rw [validateBrief, h1]
  simp only [if_true]
  rw [h2]
  simp only [if_true]
  rw [h3]
  simp only [if_true]
  rw [validateFields, hb]
  simp only []
  rw [if_neg hw, ha]
  simp only []
  rw [if_pos hxs, hc]
  simp only []
  rw [if_pos hys]

theorem validateBrief_angles_bad (j : Json) (bs : Str) (av : Json)
    (h1 : pyIn kBrief j = .ok true) (h2 : pyIn kAngles j = .ok true)
    (h3 : pyIn kCriteria j = .ok true)
    (hb : pyIndex kBrief j = .ok (.str bs)) (hw : ¬countWords bs < 10)
    (ha : pyIndex kAngles j = .ok av) (hbad : isList3 av = false) :
    validateBrief j = .error (.valueError msgAngles3) := by
  rw [validateBrief, h1]
  simp only [if_true]
  rw [h2]
  simp only [if_true]
  rw [h3]
  simp only [if_true]
  rw [validateFields, hb]
  simp only []
  rw [if_neg hw]
  cases av with
  | arr xs =>
    rw [ha]
    simp only []
    have hne : xs.length ≠ 3 := by simpa [isList3] using hbad
    rw [if_neg hne]
  | null => rw [ha]
  | bool b => rw [ha]
  | num n => rw [ha]
  | str s => rw [ha]
  | obj fs => rw [ha]

theorem validateBrief_criteria_bad (j : Json) (bs : Str) (xs : List Json) (cv : Json)
    (h1 : pyIn kBrief j = .ok true) (h2 : pyIn kAngles j = .ok true)
    (h3 : pyIn kCriteria j = .ok true)
    (hb : pyIndex kBrief j = .ok (.str bs)) (hw : ¬countWords bs < 10)
    (ha : pyIndex kAngles j = .ok (.arr xs)) (hxs : xs.length = 3)
    (hc : pyIndex kCriteria j = .ok cv) (hbad : isList3 cv = false) :
    validateBrief j = .error (.valueError msgCriteria3) := by
  rw [validateBrief, h1]
  simp only [if_true]
  rw [h2]
  simp only [if_true]
  rw [h3]
  simp only [if_true]
  rw [validateFields, hb]
  simp only []
  rw [if_neg hw, ha]
  simp only []
  rw [if_pos hxs]
  cases cv with
  | arr ys =>
    rw [hc]
    simp only []
    have hne : ys.length ≠ 3 := by simpa [isList3] using hbad
    rw [if_neg hne]
  | null => rw [hc]
  | bool b => rw [hc]
  | num n => rw [hc]
  | str s => rw [hc]
  | obj fs => rw [hc]

/-- C6: whenever the parsed object has the three fields, a string brief of
at least 10 words, and its `angles` value is not a list of exactly 3
elements, `parse_json_response` raises a `ValueError` whose message
contains "Must have exactly 3 content angles"; symmetrically, with a
well-formed `angles`, a `criteria` value that is not a list of exactly 3
elements raises one containing "Must have exactly 3 selection criteria". -/
theorem C6_cardinality_errors (s : Str) (j : Json) (bs : Str)
    (hload : pyLoads (extract_candidate s) = .ok j)
    (h1 : pyIn kBrief j = .ok true) (h2 : pyIn kAngles j = .ok true)
    (h3 : pyIn kCriteria j = .ok true)
    (hb : pyIndex kBrief j = .ok (.str bs)) (hw : 10 ≤ countWords bs) :
    (∀ av, pyIndex kAngles j = .ok av → isList3 av = false →
      ∃ m, parse_json_response s = .error (.valueError m) ∧
        hasSubstr msgAngles3 m = true) ∧
    (∀ xs cv, pyIndex kAngles j = .ok (.arr xs) → xs.length = 3 →
      pyIndex kCriteria j = .ok cv → isList3 cv = false →
      ∃ m, parse_json_response s = .error (.valueError m) ∧
        hasSubstr msgCriteria3 m = true) := by
  constructor
  · intro av ha hbad
    refine ⟨invalidPrefix ++ msgAngles3, ?_, by decide⟩
    rw [parse_json_response, hload]
    simp only []
    rw [validateBrief_angles_bad j bs av h1 h2 h3 hb (by omega) ha hbad]
  · intro xs cv ha hxs hc hbad
    refine ⟨invalidPrefix ++ msgCriteria3, ?_, by decide⟩
    rw [parse_json_response, hload]
    simp only []
    rw [validateBrief_criteria_bad j bs xs cv h1 h2 h3 hb (by omega) ha hxs hc hbad]

/-- Witness for C6: a response with exactly 2 angle entries raises the
angles cardinality error, and one with exactly 2 criteria entries raises
the criteria cardinality error. -/
theorem C6_witness :
    (pyLoads (extract_candidate
      (("\x7b\"brief\": \"w1 w2 w3 w4 w5 w6 w7 w8 w9 w10\", \"angles\": [\"a\", \"b\"], \"criteria\": [\"c\", \"d\", \"e\"]\x7d").toList)) =
      .ok (.obj [(kBrief, .str (("w1 w2 w3 w4 w5 w6 w7 w8 w9 w10").toList)),
        (kAngles, .arr [.str (("a").toList), .str (("b").toList)]),
        (kCriteria, .arr [.str (("c").toList), .str (("d").toList), .str (("e").toList)])])) ∧
    (∃ m, parse_json_response
      (("\x7b\"brief\": \"w1 w2 w3 w4 w5 w6 w7 w8 w9 w10\", \"angles\": [\"a\", \"b\"], \"criteria\": [\"c\", \"d\", \"e\"]\x7d").toList) =
        .error (.valueError m) ∧ hasSubstr msgAngles3 m = true) ∧
    (∃ m, parse_json_response
      (("\x7b\"brief\": \"w1 w2 w3 w4 w5 w6 w7 w8 w9 w10\", \"angles\": [\"a\", \"b\", \"c\"], \"criteria\": [\"d\", \"e\"]\x7d").toList) =
        .error (.valueError m) ∧ hasSubstr msgCriteria3 m = true) :=
  ⟨by decide,
   (C6_cardinality_errors _
      (.obj [(kBrief, .str (("w1 w2 w3 w4 w5 w6 w7 w8 w9 w10").toList)),
        (kAngles, .arr [.str (("a").toList), .str (("b").toList)]),
        (kCriteria, .arr [.str (("c").toList), .str (("d").toList), .str (("e").toList)])])
      (("w1 w2 w3 w4 w5 w6 w7 w8 w9 w10").toList)
      (by decide) (by decide) (by decide) (by decide) (by decide) (by decide)).1
      (.arr [.str (("a").toList), .str (("b").toList)]) (by decide) (by decide),
   (C6_cardinality_errors _
      (.obj [(kBrief, .str (("w1 w2 w3 w4 w5 w6 w7 w8 w9 w10").toList)),
        (kAngles, .arr [.str (("a").toList), .str (("b").toList), .str (("c").toList)]),
        (kCriteria, .arr [.str (("d").toList), .str (("e").toList)])])
      (("w1 w2 w3 w4 w5 w6 w7 w8 w9 w10").toList)
      (by decide) (by decide) (by decide) (by decide) (by decide) (by decide)).2
      [.str (("a").toList), .str (("b").toList), .str (("c").toList)]
      (.arr [.str (("d").toList), .str (("e").toList)])
      (by decide) (by decide) (by decide) (by decide)⟩

/-- C8: sentence-count leniency — whenever the parsed object satisfies
every other validation rule, `parse_json_response` succeeds even though
the sentence count of the brief (splitting on `.`, `!`, `?` and counting
non-blank segments) lies outside the range 3 to 8; the count is computed
but never enforced. -/
theorem C8_sentence_leniency (s : Str) (j : Json) (bs : Str) (xs ys : List Json)
    (hload : pyLoads (extract_candidate s) = .ok j)
    (h1 : pyIn kBrief j = .ok true) (h2 : pyIn kAngles j = .ok true)
    (h3 : pyIn kCriteria j = .ok true)
    (hb : pyIndex kBrief j = .ok (.str bs)) (hw : 10 ≤ countWords bs)
    (ha : pyIndex kAngles j = .ok (.arr xs)) (hxs : xs.length = 3)
    (hc : pyIndex kCriteria j = .ok (.arr ys)) (hys : ys.length = 3)
    (_hsc : sentenceCount bs < 3 ∨ 8 < sentenceCount bs) :
    parse_json_response s = .ok j := by
  rw [parse_json_response, hload]
  simp only []
  rw [validateBrief_ok_of_fields j bs xs ys h1 h2 h3 hb (by omega) ha hxs hc hys]

/-- Witness for C8: a ten-word brief with no sentence punctuation at all
(sentence count 1) still validates. -/
theorem C8_witness :
    (sentenceCount (("w1 w2 w3 w4 w5 w6 w7 w8 w9 w10").toList) < 3 ∨
      8 < sentenceCount (("w1 w2 w3 w4 w5 w6 w7 w8 w9 w10").toList)) ∧
    parse_json_response
      (("\x7b\"brief\": \"w1 w2 w3 w4 w5 w6 w7 w8 w9 w10\", \"angles\": [\"a\", \"b\", \"c\"], \"criteria\": [\"d\", \"e\", \"f\"]\x7d").toList) =
      .ok (.obj [(kBrief, .str (("w1 w2 w3 w4 w5 w6 w7 w8 w9 w10").toList)),
        (kAngles, .arr [.str (("a").toList), .str (("b").toList), .str (("c").toList)]),
        (kCriteria, .arr [.str (("d").toList), .str (("e").toList), .str (("f").toList)])]) :=
  ⟨by decide,
   C8_sentence_leniency _
     (.obj [(kBrief, .str (("w1 w2 w3 w4 w5 w6 w7 w8 w9 w10").toList)),
       (kAngles, .arr [.str (("a").toList), .str (("b").toList), .str (("c").toList)]),
       (kCriteria, .arr [.str (("d").toList), .str (("e").toList), .str (("f").toList)])])
     (("w1 w2 w3 w4 w5 w6 w7 w8 w9 w10").toList)
     [.str (("a").toList), .str (("b").toList), .str (("c").toList)]
     [.str (("d").toList), .str (("e").toList), .str (("f").toList)]
     (by decide) (by decide) (by decide) (by decide) (by decide) (by decide)
     (by decide) (by decide) (by decide) (by decide) (Or.inl (by decide))⟩

/-- C9: element types of `angles` and `criteria` are never inspected —
whenever the parsed object has the three fields, a string brief of at
least 10 words, and any two lists of exactly 3 elements (numbers, nulls,
booleans, nested containers included), validation succeeds and the object
with those very lists is returned. -/
theorem C9_element_types_unchecked (s : Str) (j : Json) (bs : Str) (xs ys : List Json)
    (hload : pyLoads (extract_candidate s) = .ok j)
    (h1 : pyIn kBrief j = .ok true) (h2 : pyIn kAngles j = .ok true)
    (h3 : pyIn kCriteria j = .ok true)
    (hb : pyIndex kBrief j = .ok (.str bs)) (hw : 10 ≤ countWords bs)
    (ha : pyIndex kAngles j = .ok (.arr xs)) (hxs : xs.length = 3)
    (hc : pyIndex kCriteria j = .ok (.arr ys)) (hys : ys.length = 3) :
    parse_json_response s = .ok j ∧
    pyIndex kAngles j = .ok (.arr xs) ∧ pyIndex kCriteria j = .ok (.arr ys) := by
  refine ⟨?_, ha, hc⟩
  rw [parse_json_response, hload]
  simp only []
  rw [validateBrief_ok_of_fields j bs xs ys h1 h2 h3 hb (by omega) ha hxs hc hys]

/-- Witness for C9: the angle entries are a number, a null and a boolean,
the criteria entries an empty array, a number and a string; validation
still succeeds and returns them untouched. -/
theorem C9_witness :
    parse_json_response
      (("\x7b\"brief\": \"w1 w2 w3 w4 w5 w6 w7 w8 w9 w10\", \"angles\": [1, null, true], \"criteria\": [[], 2, \"x\"]\x7d").toList) =
      .ok (.obj [(kBrief, .str (("w1 w2 w3 w4 w5 w6 w7 w8 w9 w10").toList)),
        (kAngles, .arr [.num 1, .null, .bool true]),
        (kCriteria, .arr [.arr [], .num 2, .str (("x").toList)])]) ∧
    pyIndex kAngles (.obj [(kBrief, .str (("w1 w2 w3 w4 w5 w6 w7 w8 w9 w10").toList)),
        (kAngles, .arr [.num 1, .null, .bool true]),
        (kCriteria, .arr [.arr [], .num 2, .str (("x").toList)])]) =
      .ok (.arr [.num 1, .null, .bool true]) :=
  ⟨(C9_element_types_unchecked _
     (.obj [(kBrief, .str (("w1 w2 w3 w4 w5 w6 w7 w8 w9 w10").toList)),
       (kAngles, .arr [.num 1, .null, .bool true]),
       (kCriteria, .arr [.arr [], .num 2, .str (("x").toList)])])
     (("w1 w2 w3 w4 w5 w6 w7 w8 w9 w10").toList)
     [.num 1, .null, .bool true]
     [.arr [], .num 2, .str (("x").toList)]
     (by decide) (by decide) (by decide) (by decide) (by decide) (by decide)
     (by decide) (by decide) (by decide) (by decide)).1,
   by decide⟩

/-- C7: invoking the hosted provider with no credential — no per-call
token (or an empty one) and an empty configured key — fails with the
configuration `ValueError` before any network attempt (the conclusion
holds for every possible network outcome in `env`), and this error
propagates out of `generate_campaign_brief` instead of being absorbed
into a degraded result. -/
theorem C7_missing_credential (st : Settings) (brand platform goal tone : Str)
    (api_token : Option Str) (env : ProviderEnv)
    (hprov : st.AI_PROVIDER = pOpenai)
    (htok : api_token = none ∨ api_token = some [])
    (hkey : st.AI_PROVIDER_API_KEY = []) :
    call_openai_api build_system_prompt (build_user_prompt brand platform goal tone)
        api_token st env = .error (.valueError msgNoKey) ∧
    generate_campaign_brief st false brand platform goal tone api_token env =
      .error (.valueError msgNoKey) := by
  have d1 : (pOpenai == pTest) = false := by decide
  have d2 : ¬pOpenai = pTest := by decide
  have d3 : ¬pOpenai = pOllama := by decide
  constructor
  · rcases htok with h | h <;> subst h <;> simp [call_openai_api, hkey]
  · rcases htok with h | h <;> subst h <;>
      simp [generate_campaign_brief, call_openai_api, hprov, hkey, d1, d2, d3]

/-- Witness for C7: empty configured key, no per-call token, hosted
provider selected — the configuration error propagates out of the
orchestrator whatever the network oracle holds. -/
theorem C7_witness :
    (⟨("openai").toList, [], ("llama3.2").toList, ("gpt-4o-mini").toList⟩ :
      Settings).AI_PROVIDER = pOpenai ∧
    generate_campaign_brief
      ⟨("openai").toList, [], ("llama3.2").toList, ("gpt-4o-mini").toList⟩ false
      (("Acme").toList) (("Instagram").toList) (("Awareness").toList)
      (("Professional").toList) none
      ⟨.ok (("x").toList, 5), .ok (("y").toList, 1, 2, 3), ("b").toList,
        ("a1").toList, ("a2").toList, ("a3").toList,
        ("c1").toList, ("c2").toList, ("c3").toList⟩ =
      .error (.valueError msgNoKey) :=
  ⟨rfl,
   (C7_missing_credential _ _ _ _ _ none _ rfl (Or.inl rfl) rfl).2⟩

/-- Counterexample to C1 as stated: with the local provider selected and
the one network call failing ("connection refused"), the orchestrator
raises the wrapped adapter exception outward instead of returning a
degraded result object. -/
theorem C1_counterexample :
    generate_campaign_brief
      ⟨("ollama").toList, [], ("llama3.2").toList, ("gpt-4o-mini").toList⟩ false
      (("Acme").toList) (("Instagram").toList) (("Awareness").toList)
      (("Professional").toList) none
      ⟨.error (("connection refused").toList), .ok (("y").toList, 1, 2, 3),
        ("b").toList, ("a1").toList, ("a2").toList, ("a3").toList,
        ("c1").toList, ("c2").toList, ("c3").toList⟩ =
      .error (.exc (msgOllamaErr ++ ("connection refused").toList)) := by decide

/-- C1 (amended): normalization/validation failures are captured into the
returned result object — `metrics.success == false`, `metrics.parse_error`
set, and a non-empty brief referencing the failure — but a provider
adapter transport failure is NOT captured: it propagates out of
`generate_campaign_brief` as the adapter exception, for the local and the
hosted provider alike. -/
theorem C1_exception_paths (st : Settings) (brand platform goal tone : Str)
    (api_token : Option Str) (env : ProviderEnv) :
    (st.AI_PROVIDER = pOllama → ∀ e, env.ollamaReply = .error e →
      generate_campaign_brief st false brand platform goal tone api_token env =
        .error (.exc (msgOllamaErr ++ e))) ∧
    (st.AI_PROVIDER = pOpenai → ∀ t, api_token = some t → t ≠ [] →
      ∀ e, env.openaiReply = .error e →
      generate_campaign_brief st false brand platform goal tone api_token env =
        .error (.exc (msgOpenaiErr ++ e))) ∧
    (st.AI_PROVIDER = pOllama → ∀ text evalCount, env.ollamaReply = .ok (text, evalCount) →
      ∀ m, parse_json_response text = .error (.valueError m) →
      generate_campaign_brief st false brand platform goal tone api_token env =
        .ok { brief := .str (errorGenPre ++ brand ++ colonSep ++ m),
              angles := .arr errFallbackAngles, criteria := .arr errFallbackCriteria,
              metrics := { provider := ("ollama").toList, model := st.OLLAMA_MODEL,
                           tokens_used := evalCount, total_tokens := evalCount,
                           prompt_tokens := 0, success := some false,
                           parse_error := some m, error := none },
              raw_response := some text } ∧
      errorGenPre ++ brand ++ colonSep ++ m ≠ []) := by
  have dOl1 : (pOllama == pTest) = false := by decide
  have dOl2 : ¬pOllama = pTest := by decide
  have dOl3 : pOllama = pOllama := rfl
  have dOp1 : (pOpenai == pTest) = false := by decide
  have dOp2 : ¬pOpenai = pTest := by decide
  have dOp3 : ¬pOpenai = pOllama := by decide
  refine ⟨?_, ?_, ?_⟩
  · intro hprov e he
    simp [generate_campaign_brief, call_ollama_api, hprov, he, dOl1, dOl2, dOl3]
  · intro hprov t ht hne e he
    subst ht
    simp [generate_campaign_brief, call_openai_api, hprov, he, hne,
      dOp1, dOp2, dOp3]
  · intro hprov text evalCount he m hm
    refine ⟨?_, by simp [errorGenPre]⟩
    simp [generate_campaign_brief, call_ollama_api, hprov, he, hm,
      dOl1, dOl2, dOl3]

/-- Witness for C1: at concrete inputs, the local-provider transport
failure and the hosted-provider transport failure both escape as
exceptions, while a parse failure of a successful reply is captured into
the degraded result object. -/
theorem C1_witness :
    generate_campaign_brief
      ⟨("ollama").toList, [], ("llama3.2").toList, ("gpt-4o-mini").toList⟩ false
      (("Acme").toList) (("Instagram").toList) (("Awareness").toList)
      (("Professional").toList) none
      ⟨.error (("connection refused").toList), .ok (("y").toList, 1, 2, 3),
        ("b").toList, ("a1").toList, ("a2").toList, ("a3").toList,
        ("c1").toList, ("c2").toList, ("c3").toList⟩ =
      .error (.exc (msgOllamaErr ++ ("connection refused").toList)) ∧
    generate_campaign_brief
      ⟨("openai").toList, [], ("llama3.2").toList, ("gpt-4o-mini").toList⟩ false
      (("Acme").toList) (("Instagram").toList) (("Awareness").toList)
      (("Professional").toList) (some (("sk-test").toList))
      ⟨.ok (("x").toList, 5), .error (("timeout").toList),
        ("b").toList, ("a1").toList, ("a2").toList, ("a3").toList,
        ("c1").toList, ("c2").toList, ("c3").toList⟩ =
      .error (.exc (msgOpenaiErr ++ ("timeout").toList)) ∧
    (generate_campaign_brief
      ⟨("ollama").toList, [], ("llama3.2").toList, ("gpt-4o-mini").toList⟩ false
      (("Acme").toList) (("Instagram").toList) (("Awareness").toList)
      (("Professional").toList) none
      ⟨.ok (("not json").toList, 5), .ok (("y").toList, 1, 2, 3),
        ("b").toList, ("a1").toList, ("a2").toList, ("a3").toList,
        ("c1").toList, ("c2").toList, ("c3").toList⟩ =
      .ok { brief := .str (errorGenPre ++ ("Acme").toList ++ colonSep ++
                      (invalidPrefix ++ msgExpectingValue)),
            angles := .arr errFallbackAngles, criteria := .arr errFallbackCriteria,
            metrics := { provider := ("ollama").toList, model := ("llama3.2").toList,
                         tokens_used := 5, total_tokens := 5,
                         prompt_tokens := 0, success := some false,
                         parse_error := some (invalidPrefix ++ msgExpectingValue),
                         error := none },
            raw_response := some (("not json").toList) } ∧
      errorGenPre ++ ("Acme").toList ++ colonSep ++
        (invalidPrefix ++ msgExpectingValue) ≠ []) :=
  ⟨(C1_exception_paths _ _ _ _ _ none _).1 rfl _ rfl,
   (C1_exception_paths _ _ _ _ _ (some (("sk-test").toList)) _).2.1 rfl _ rfl
     (by decide) _ rfl,
   (C1_exception_paths _ _ _ _ _ none _).2.2 rfl _ 5 rfl
     (invalidPrefix ++ msgExpectingValue) (by decide)⟩

/-- A needle matches at the head of itself extended by anything. -/
theorem headMatch_refl (s : Str) : ∀ t, headMatch s (s ++ t) = true := by
  induction s with
  | nil => intro t; rfl
  | cons c cs ih => intro t; simp [headMatch, ih t]

/-- A needle that stands at the end of the haystack is found. -/
theorem pyFindGo_append_isSome (m x : Str) : ∀ i, (pyFindGo m (x ++ m) i).isSome = true := by
  induction x with
  | nil =>
    intro i
    cases hm : m with
    | nil => simp [pyFindGo, headMatch]
    | cons c t =>
      rw [List.nil_append, pyFindGo]
      have : headMatch m (c :: t) = true := by
        have := headMatch_refl m []
        rw [List.append_nil] at this
        rw [hm] at this ⊢
        exact this
      rw [hm] at this
      rw [if_pos this]
      rfl
  | cons c x ih =>
    intro i
    rw [List.cons_append, pyFindGo]
    by_cases hh : headMatch m (c :: (x ++ m)) = true
    · rw [if_pos hh]; rfl
    · rw [if_neg hh]; exact ih (i + 1)

/-- Any text embeds its own suffix. -/
theorem hasSubstr_append_right (m x : Str) : hasSubstr m (x ++ m) = true := by
  rw [hasSubstr, pyFind]
  exact pyFindGo_append_isSome m x 0

/-- C3: whenever a real provider returns raw text on which
`parse_json_response` raises a `ValueError`, the orchestrator returns the
degraded envelope: a brief string embedding the error message, the fixed
three-element diagnostic triads, `metrics.success == false`,
`metrics.parse_error` set to the message, and the untouched raw provider
text attached under `raw_response`. -/
theorem C3_degraded_envelope (st : Settings) (brand platform goal tone : Str)
    (api_token : Option Str) (env : ProviderEnv) (text m : Str)
    (hparse : parse_json_response text = .error (.valueError m)) :
    (st.AI_PROVIDER = pOllama → ∀ evalCount, env.ollamaReply = .ok (text, evalCount) →
      generate_campaign_brief st false brand platform goal tone api_token env =
        .ok { brief := .str (errorGenPre ++ brand ++ colonSep ++ m),
              angles := .arr errFallbackAngles, criteria := .arr errFallbackCriteria,
              metrics := { provider := ("ollama").toList, model := st.OLLAMA_MODEL,
                           tokens_used := evalCount, total_tokens := evalCount,
                           prompt_tokens := 0, success := some false,
                           parse_error := some m, error := none },
              raw_response := some text }) ∧
    (st.AI_PROVIDER = pOpenai → ∀ t, api_token = some t → t ≠ [] →
      ∀ ct tt pt, env.openaiReply = .ok (text, ct, tt, pt) →
      generate_campaign_brief st false brand platform goal tone api_token env =
        .ok { brief := .str (errorGenPre ++ brand ++ colonSep ++ m),
              angles := .arr errFallbackAngles, criteria := .arr errFallbackCriteria,
              metrics := { provider := ("openai").toList, model := st.OPENAI_MODEL,
                           tokens_used := ct, total_tokens := tt,
                           prompt_tokens := pt, success := some false,
                           parse_error := some m, error := none },
              raw_response := some text }) ∧
    errFallbackAngles.length = 3 ∧ errFallbackCriteria.length = 3 ∧
    hasSubstr m (errorGenPre ++ brand ++ colonSep ++ m) = true := by
  have dOl1 : (pOllama == pTest) = false := by decide
  have dOl2 : ¬pOllama = pTest := by decide
  have dOp1 : (pOpenai == pTest) = false := by decide
  have dOp2 : ¬pOpenai = pTest := by decide
  have dOp3 : ¬pOpenai = pOllama := by decide
  refine ⟨?_, ?_, by decide, by decide, ?_⟩
  · intro hprov evalCount he
    simp [generate_campaign_brief, call_ollama_api, hprov, he, hparse, dOl1, dOl2]
  · intro hprov t ht hne ct tt pt he
    subst ht
    simp [generate_campaign_brief, call_openai_api, hprov, he, hne, hparse,
      dOp1, dOp2, dOp3]
  · have : errorGenPre ++ brand ++ colonSep ++ m =
        (errorGenPre ++ brand ++ colonSep) ++ m := by simp
    rw [this]
    exact hasSubstr_append_right m _

/-- Witness for C3 at a concrete unparseable provider reply, for both
real providers. -/
theorem C3_witness :
    parse_json_response (("\x7b oops").toList) =
      .error (.valueError (invalidPrefix ++ msgPropName)) ∧
    generate_campaign_brief
      ⟨("ollama").toList, [], ("llama3.2").toList, ("gpt-4o-mini").toList⟩ false
      (("Acme").toList) (("Instagram").toList) (("Awareness").toList)
      (("Professional").toList) none
      ⟨.ok (("\x7b oops").toList, 7), .ok (("y").toList, 1, 2, 3),
        ("b").toList, ("a1").toList, ("a2").toList, ("a3").toList,
        ("c1").toList, ("c2").toList, ("c3").toList⟩ =
      .ok { brief := .str (errorGenPre ++ ("Acme").toList ++ colonSep ++
                      (invalidPrefix ++ msgPropName)),
            angles := .arr errFallbackAngles, criteria := .arr errFallbackCriteria,
            metrics := { provider := ("ollama").toList, model := ("llama3.2").toList,
                         tokens_used := 7, total_tokens := 7,
                         prompt_tokens := 0, success := some false,
                         parse_error := some (invalidPrefix ++ msgPropName),
                         error := none },
            raw_response := some (("\x7b oops").toList) } ∧
    generate_campaign_brief
      ⟨("openai").toList, [], ("llama3.2").toList, ("gpt-4o-mini").toList⟩ false
      (("Acme").toList) (("Instagram").toList) (("Awareness").toList)
      (("Professional").toList) (some (("sk-test").toList))
      ⟨.ok (("x").toList, 5), .ok (("\x7b oops").toList, 11, 12, 13),
        ("b").toList, ("a1").toList, ("a2").toList, ("a3").toList,
        ("c1").toList, ("c2").toList, ("c3").toList⟩ =
      .ok { brief := .str (errorGenPre ++ ("Acme").toList ++ colonSep ++
                      (invalidPrefix ++ msgPropName)),
            angles := .arr errFallbackAngles, criteria := .arr errFallbackCriteria,
            metrics := { provider := ("openai").toList, model := ("gpt-4o-mini").toList,
                         tokens_used := 11, total_tokens := 12,
                         prompt_tokens := 13, success := some false,
                         parse_error := some (invalidPrefix ++ msgPropName),
                         error := none },
            raw_response := some (("\x7b oops").toList) } ∧
    errFallbackAngles.length = 3 ∧ errFallbackCriteria.length = 3 :=
  ⟨by decide,
   (C3_degraded_envelope _ _ _ _ _ none _ _ (invalidPrefix ++ msgPropName)
     (by decide)).1 rfl 7 rfl,
   (C3_degraded_envelope _ _ _ _ _ (some (("sk-test").toList)) _ _
     (invalidPrefix ++ msgPropName) (by decide)).2.1 rfl _ rfl (by decide) 11 12 13 rfl,
   by decide, by decide⟩

/-- In test mode the orchestrator always returns the parsed synthetic
payload with `success == true`; shared characterization of the whole test
branch. -/
theorem generate_test_mode (st : Settings) (pytestActive : Bool)
    (brand platform goal tone : Str) (api_token : Option Str) (env : ProviderEnv)
    (hp : pytestActive = true ∨ st.AI_PROVIDER = pTest) :
    pyLoads ((call_test_api brand platform goal tone env).1) = .ok (testObj env) ∧
    generate_campaign_brief st pytestActive brand platform goal tone api_token env =
      .ok { brief := .str env.fakeBrief,
            angles := .arr [.str env.fakeAngle1, .str env.fakeAngle2, .str env.fakeAngle3],
            criteria := .arr [.str env.fakeCrit1, .str env.fakeCrit2, .str env.fakeCrit3],
            metrics := { provider := ("test").toList, model := ("faker").toList,
                         tokens_used := countWords (dumpsInd 0 (testObj env)),
                         total_tokens := countWords (dumpsInd 0 (testObj env)),
                         prompt_tokens := 0, success := some true,
                         parse_error := none, error := none },
            raw_response := none } := by
  have hload : pyLoads (dumpsInd 0 (testObj env)) = .ok (testObj env) :=
    pyLoads_dumpsInd_briefObj env.fakeBrief env.fakeAngle1 env.fakeAngle2 env.fakeAngle3
      env.fakeCrit1 env.fakeCrit2 env.fakeCrit3
  have hib : pyIndex kBrief (testObj env) = .ok (.str env.fakeBrief) := rfl
  have hia : pyIndex kAngles (testObj env) =
      .ok (.arr [.str env.fakeAngle1, .str env.fakeAngle2, .str env.fakeAngle3]) := rfl
  have hic : pyIndex kCriteria (testObj env) =
      .ok (.arr [.str env.fakeCrit1, .str env.fakeCrit2, .str env.fakeCrit3]) := rfl
  refine ⟨hload, ?_⟩
  rcases hp with hp | hp
  · subst hp
    simp [generate_campaign_brief, call_test_api, hload, hib, hia, hic]
  · have hb : (st.AI_PROVIDER == pTest) = true := by simp [hp]
    simp [generate_campaign_brief, call_test_api, hb, hload, hib, hia, hic]

/-- C10: the test-provider error branch is unreachable.  `call_test_api`
serializes a dict of a string brief and two three-string lists, its
output always parses back to that dict, and every call of
`generate_campaign_brief` resolving to the test provider returns
`metrics.success == true` with the generated brief, angles and criteria —
never the "Test provider error" fallback. -/
theorem C10_test_branch (st : Settings) (pytestActive : Bool)
    (brand platform goal tone : Str) (api_token : Option Str) (env : ProviderEnv)
    (hp : pytestActive = true ∨ st.AI_PROVIDER = pTest) :
    pyLoads ((call_test_api brand platform goal tone env).1) = .ok (testObj env) ∧
    generate_campaign_brief st pytestActive brand platform goal tone api_token env =
      .ok { brief := .str env.fakeBrief,
            angles := .arr [.str env.fakeAngle1, .str env.fakeAngle2, .str env.fakeAngle3],
            criteria := .arr [.str env.fakeCrit1, .str env.fakeCrit2, .str env.fakeCrit3],
            metrics := { provider := ("test").toList, model := ("faker").toList,
                         tokens_used := countWords (dumpsInd 0 (testObj env)),
                         total_tokens := countWords (dumpsInd 0 (testObj env)),
                         prompt_tokens := 0, success := some true,
                         parse_error := none, error := none },
            raw_response := none } :=
  generate_test_mode st pytestActive brand platform goal tone api_token env hp

/-- Witness for C10 at a concrete synthetic run. -/
theorem C10_witness :
    ((⟨("test").toList, [], ("llama3.2").toList, ("gpt-4o-mini").toList⟩ :
        Settings).AI_PROVIDER = pTest ∨ False) ∧
    generate_campaign_brief
      ⟨("test").toList, [], ("llama3.2").toList, ("gpt-4o-mini").toList⟩ false
      (("Acme").toList) (("TikTok").toList) (("Conversions").toList)
      (("Playful").toList) none
      ⟨.ok (("x").toList, 5), .ok (("y").toList, 1, 2, 3),
        ("lorem ipsum dolor sit amet").toList, ("angle one").toList,
        ("angle two").toList, ("angle three").toList, ("crit one").toList,
        ("crit two").toList, ("crit three").toList⟩ =
      .ok { brief := .str (("lorem ipsum dolor sit amet").toList),
            angles := .arr [.str (("angle one").toList), .str (("angle two").toList),
                      .str (("angle three").toList)],
            criteria := .arr [.str (("crit one").toList), .str (("crit two").toList),
                        .str (("crit three").toList)],
            metrics := { provider := ("test").toList, model := ("faker").toList,
                         tokens_used := countWords (dumpsInd 0 (testObj
                           ⟨.ok (("x").toList, 5), .ok (("y").toList, 1, 2, 3),
                             ("lorem ipsum dolor sit amet").toList, ("angle one").toList,
                             ("angle two").toList, ("angle three").toList,
                             ("crit one").toList, ("crit two").toList,
                             ("crit three").toList⟩)),
                         total_tokens := countWords (dumpsInd 0 (testObj
                           ⟨.ok (("x").toList, 5), .ok (("y").toList, 1, 2, 3),
                             ("lorem ipsum dolor sit amet").toList, ("angle one").toList,
                             ("angle two").toList, ("angle three").toList,
                             ("crit one").toList, ("crit two").toList,
                             ("crit three").toList⟩)),
                         prompt_tokens := 0, success := some true,
                         parse_error := none, error := none },
            raw_response := none } :=
  ⟨Or.inl rfl,
   (C10_test_branch _ false _ _ _ _ none _ (Or.inr rfl)).2⟩

/-- A successful `parse_json_response` means the parsed object itself
passed validation. -/
theorem parse_json_response_ok_inv (s : Str) (data : Json)
    (h : parse_json_response s = .ok data) :
    validateBrief data = .ok data := by
  rw [parse_json_response] at h
  cases hl : pyLoads (extract_candidate s) with
  | error m => rw [hl] at h; simp at h
  | ok d =>
    rw [hl] at h
    simp only [] at h
    cases hv : validateBrief d with
    | ok d2 =>
      rw [hv] at h
      simp only [] at h
      have hd : d2 = d := (validateBrief_ok_shape d d2 hv).1
      have hd2 : d2 = data := by cases h; rfl
      have hdd : data = d := by rw [← hd2, hd]
      rw [hdd]
      nth_rewrite 2 [← hd]
      exact hv
    | error e =>
      rw [hv] at h
      cases e <;> simp at h

/-- C2: every object `generate_campaign_brief` returns — on the
successful-validation path, the test-provider path and every
degraded/fallback path alike — carries `angles` and `criteria` arrays of
length exactly 3. -/
theorem C2_arrays_length3 (st : Settings) (pytestActive : Bool)
    (brand platform goal tone : Str) (api_token : Option Str) (env : ProviderEnv)
    (r : GenResult)
    (h : generate_campaign_brief st pytestActive brand platform goal tone api_token env =
      .ok r) :
    (∃ xs, r.angles = .arr xs ∧ xs.length = 3) ∧
    (∃ ys, r.criteria = .arr ys ∧ ys.length = 3) := by
  by_cases htest : pytestActive = true ∨ st.AI_PROVIDER = pTest
  · have hgen := (generate_test_mode st pytestActive brand platform goal tone
      api_token env htest).2
    rw [hgen] at h
    cases h
    exact ⟨⟨_, rfl, rfl⟩, ⟨_, rfl, rfl⟩⟩
  · obtain ⟨h1, h2⟩ := not_or.mp htest
    have hpf : pytestActive = false := by
      cases pytestActive
      · rfl
      · exact absurd rfl h1
    have hbeq : (st.AI_PROVIDER == pTest) = false := by
      rw [beq_eq_false_iff_ne]; exact h2
    subst hpf
    rw [generate_campaign_brief] at h
    simp only [hbeq, Bool.false_or, if_neg h2] at h
    repeat' split at h
    all_goals (try (exfalso; exact Except.noConfusion h))
    all_goals (try (exact absurd ‹false = true› (by decide)))
    all_goals (cases h)
    all_goals (try (exact ⟨⟨_, rfl, by decide⟩, ⟨_, rfl, by decide⟩⟩))
    all_goals
      (rename_i d hpj x2 bV hkb x1 aV hka x0 cV hkc
       have hv := parse_json_response_ok_inv _ _ hpj
       rcases validateBrief_ok_shape _ _ hv with ⟨-, bs, xs, ys, hB, hW, hA, hx3, hC, hy3⟩
       rw [hka] at hA
       rw [hkc] at hC
       have haeq : aV = Json.arr xs := Except.ok.inj hA
       have hceq : cV = Json.arr ys := Except.ok.inj hC
       subst haeq
       subst hceq
       exact ⟨⟨xs, rfl, hx3⟩, ⟨ys, rfl, hy3⟩⟩)

/-- Witness for C2 at a concrete degraded run: the local provider
returns unparseable text, and the returned fallback object carries the
two three-element diagnostic arrays. -/
theorem C2_witness :
    (∃ xs,
      ({ brief := .str (errorGenPre ++ ("BrandZ").toList ++ colonSep ++
                   (invalidPrefix ++ msgExpectingValue)),
         angles := .arr errFallbackAngles,
         criteria := .arr errFallbackCriteria,
         metrics := { provider := ("ollama").toList, model := ("m").toList,
                      tokens_used := 2, total_tokens := 2, prompt_tokens := 0,
                      success := some false,
                      parse_error := some (invalidPrefix ++ msgExpectingValue),
                      error := none },
         raw_response := some (("nope").toList) } : GenResult).angles =
        .arr xs ∧ xs.length = 3) ∧
    (∃ ys,
      ({ brief := .str (errorGenPre ++ ("BrandZ").toList ++ colonSep ++
                   (invalidPrefix ++ msgExpectingValue)),
         angles := .arr errFallbackAngles,
         criteria := .arr errFallbackCriteria,
         metrics := { provider := ("ollama").toList, model := ("m").toList,
                      tokens_used := 2, total_tokens := 2, prompt_tokens := 0,
                      success := some false,
                      parse_error := some (invalidPrefix ++ msgExpectingValue),
                      error := none },
         raw_response := some (("nope").toList) } : GenResult).criteria =
        .arr ys ∧ ys.length = 3) :=
  C2_arrays_length3
    ⟨("ollama").toList, [], ("m").toList, ("g").toList⟩ false
    (("BrandZ").toList) (("Instagram").toList) (("Awareness").toList)
    (("Professional").toList) none
    ⟨.ok (("nope").toList, 2), .ok (("y").toList, 1, 2, 3),
      [], [], [], [], [], [], []⟩
    _ (by decide)
